import Mathlib

/-!
# Verification of the plateau-detection core (`app/analytics/plateau.py`)

This file gives a shallow embedding of the plateau-detection module of the
nutrition-analysis tracker and proves, or refutes, the frozen claims about it.

Modelling conventions:
* Python `float` weights/thresholds are modelled as `ℚ` (exact arithmetic
  standing in for IEEE doubles; the algorithm only adds, multiplies and
  divides).
* Python `datetime.date` values are modelled as `ℤ` (a day number); date
  subtraction and `timedelta` addition become integer arithmetic, and
  `date.isoformat()` presentation strings are represented by the day number
  itself.
* `datetime.fromisoformat` is a library call; it is modelled by an arbitrary
  parameter `parse : String → Option ℤ` (`none` = the library raises
  `ValueError`).  All theorems are quantified over `parse`.
* Python exceptions are modelled with `Except PyErr`; a `raise` becomes
  `.error e` and aborts the computation, exactly as an uncaught exception
  aborts `detect_plateau`.
* Python's `sorted` / `list.sort` (a stable sort) is modelled by
  `List.insertionSort`, which is also stable.
-/

namespace NutritionPlateau

/-- Python exception kinds that the plateau module can raise.
`nameError` models the use of the unassigned local `dates_s`
(line 159 of the source) when no smoothing branch assigned it. -/
inductive PyErr
  | typeError
  | valueError
  | nameError
  deriving DecidableEq, Repr

/-- The possible values of a date-like field of an input record, as seen by
`_to_date` (lines 21-30).  `vnone` is both "key absent" (Python's
`row.get` returns `None`) and an explicit `None` value — indistinguishable in
the source.  `vother` is any other object, carrying only its truthiness,
which is all `or`-chaining can observe before `_to_date` raises. -/
inductive DVal
  | vdate (d : ℤ)
  | vdatetime (d : ℤ)
  | vstr (s : String)
  | vnone
  | vother (t : Bool)
  deriving DecidableEq, Repr

/-- Python truthiness of a `DVal`: `None` is falsy, `""` is falsy,
`date`/`datetime` objects are truthy. -/
def DVal.truthy : DVal → Bool
  | .vnone => false
  | .vstr s => decide (s ≠ "")
  | .vdate _ => true
  | .vdatetime _ => true
  | .vother t => t

/-- Python `a or b`. -/
def pyOr (a b : DVal) : DVal := if a.truthy then a else b

/-- A weigh-in record: the three candidate date keys checked at line 98
(`date`, `logged_at`, `weighed_at`; a missing key reads as `vnone`) and the
`weight` value (`none` = key absent or value `None`). -/
structure WRecord where
  date : DVal := .vnone
  logged_at : DVal := .vnone
  weighed_at : DVal := .vnone
  weight : Option ℚ := none
  deriving DecidableEq, Repr

/-- A sodium record: the two candidate date keys checked at line 200
(`date`, `logged_at`) and the `sodium` value. -/
structure SRecord where
  date : DVal := .vnone
  logged_at : DVal := .vnone
  sodium : Option ℚ := none
  deriving DecidableEq, Repr

/-- `_to_date` (lines 21-30): accept a date, a datetime (truncated to its
date), or a string handed to the ISO parser (`ValueError` when unparseable);
any other type — including `None` — raises `TypeError`. -/
def to_date (parse : String → Option ℤ) : DVal → Except PyErr ℤ
  | .vdate d => .ok d
  | .vdatetime d => .ok d
  | .vstr s =>
    match parse s with
    | some d => .ok d
    | none => .error .valueError
  | .vnone => .error .typeError
  | .vother _ => .error .typeError

/-- `_median` (lines 11-19): `ValueError` on an empty list, otherwise the
middle of the sorted values (mean of the two middles when even). -/
def pymedian (values : List ℚ) : Except PyErr ℚ :=
  if values = [] then .error .valueError
  else
    let s := values.insertionSort (· ≤ ·)
    let n := s.length
    let mid := n / 2
    if n % 2 = 1 then .ok (s.getD mid 0)
    else .ok ((s.getD (mid - 1) 0 + s.getD mid 0) / 2)

/-- `_linear_regression_slope` (lines 32-43). -/
def linear_regression_slope (xs ys : List ℚ) : ℚ :=
  let n := xs.length
  if n < 2 then 0
  else
    let x_mean := xs.sum / n
    let y_mean := ys.sum / n
    let num := ((xs.zip ys).map (fun p => (p.1 - x_mean) * (p.2 - y_mean))).sum
    let den := (xs.map (fun x => (x - x_mean) ^ 2)).sum
    if den = 0 then 0 else num / den

/-- `_rolling_mean` (lines 45-55): trailing moving average over samples;
entry `i` is defined once `i + 1 ≥ window`, as the mean of
`values[i+1-window : i+1]`.  (The source would raise `ZeroDivisionError`
for `window = 0` on a non-empty input; every use in the module and in the
claims has `window ≥ 1`, where this model is exact.) -/
def rolling_mean (values : List ℚ) (window : ℕ) : List (Option ℚ) :=
  (List.range values.length).map fun i =>
    if window ≤ i + 1 then
      some ((((values.take (i + 1)).drop (i + 1 - window)).sum) / (window : ℚ))
    else none

/-- `_ewma` (lines 57-67): `alpha = 2/(span+1)`, first output equals the
first input, then `out[k+1] = alpha * in[k+1] + (1 - alpha) * out[k]`. -/
def ewma (values : List ℚ) (span : ℕ) : List ℚ :=
  match values with
  | [] => []
  | v :: rest =>
    let alpha : ℚ := 2 / ((span : ℚ) + 1)
    List.scanl (fun prev x => alpha * x + (1 - alpha) * prev) v rest

/-- The keyword parameters of `detect_plateau` (lines 76-86) with their
default values. -/
structure Params where
  window_days : ℤ := 14
  min_weighins : ℤ := 10
  ma_window_points : ℕ := 7
  slope_flat_lbs_per_week : ℚ := 1/4
  net_change_lbs : ℚ := 1/2
  strong_slope_lbs_per_week : ℚ := 3/20
  strong_net_change_lbs : ℚ := 3/10
  use_ewma_if_sparse : Bool := true
  sodium_spike_mg : ℚ := 2300
  sodium_spike_days_flag : ℤ := 4
  deriving DecidableEq, Repr

/-- The report dictionary returned by `detect_plateau`.  The three return
sites (lines 107-110, 120-128, 210-225) build dictionaries with different
key sets; a key absent from the returned dictionary is `none` here.
`window_start`/`window_end` hold the day number whose `isoformat` string
the source emits. -/
structure Report where
  detected : Bool
  reason : Option String := none
  window_days : Option ℤ := none
  weighins_count : Option ℕ := none
  required_min : Option ℤ := none
  window_start : Option ℤ := none
  window_end : Option ℤ := none
  smoothing : Option String := none
  slope_lbs_per_week : Option ℚ := none
  first_half_median : Option ℚ := none
  last_half_median : Option ℚ := none
  net_change_lbs : Option ℚ := none
  flat_trend : Option Bool := none
  small_change : Option Bool := none
  severity : Option String := none
  flags : Option (List String) := none
  deriving DecidableEq, Repr

/-- Python 3 `round` to an integer: nearest, ties to even. -/
def roundHalfToEven (q : ℚ) : ℤ :=
  let f := ⌊q⌋
  let r := q - f
  if r < 1/2 then f
  else if 1/2 < r then f + 1
  else if f % 2 = 0 then f else f + 1

/-- Python `round(q, ndigits)`. -/
def pyRound (q : ℚ) (ndigits : ℕ) : ℚ :=
  (roundHalfToEven (q * 10 ^ ndigits) : ℚ) / 10 ^ ndigits

/-- The cleaning loop over `weighins` (lines 94-102): skip `None` rows,
normalize the first truthy of the three date keys (any raised exception
aborts the whole call), skip rows whose weight is absent, keep `(date,
weight)` in input order. -/
def cleanWeighins (parse : String → Option ℤ) :
    List (Option WRecord) → Except PyErr (List (ℤ × ℚ))
  | [] => .ok []
  | none :: rest => cleanWeighins parse rest
  | some row :: rest =>
    match to_date parse (pyOr (pyOr row.date row.logged_at) row.weighed_at) with
    | .error e => .error e
    | .ok d =>
      match row.weight with
      | none => cleanWeighins parse rest
      | some w =>
        match cleanWeighins parse rest with
        | .error e => .error e
        | .ok tl => .ok ((d, w) :: tl)

/-- The sodium cleaning loop (lines 198-204): like `cleanWeighins` but with
no `None`-row skip, only two candidate date keys, and the `sodium` value. -/
def cleanSodium (parse : String → Option ℤ) :
    List SRecord → Except PyErr (List (ℤ × ℚ))
  | [] => .ok []
  | row :: rest =>
    match to_date parse (pyOr row.date row.logged_at) with
    | .error e => .error e
    | .ok d =>
      match row.sodium with
      | none => cleanSodium parse rest
      | some s =>
        match cleanSodium parse rest with
        | .error e => .error e
        | .ok tl => .ok ((d, s) :: tl)

/-- Line 140: the `(date, value)` pairs at the positions where the rolling
mean is defined. -/
def alignedRM (dates : List ℤ) (weights : List ℚ) (maW : ℕ) :
    List (ℤ × ℚ) :=
  (dates.zip (rolling_mean weights maW)).filterMap fun q =>
    q.2.map fun v => (q.1, v)

/-- The smoothing selection (lines 135-155).  Result: `some (method,
dates_s, smoothed)`, or `none` when no branch assigns `dates_s` (namely
`use_ewma_if_sparse = false` with fewer than 2 aligned rolling-mean points),
in which case line 159 raises `NameError`. -/
def chooseSmoothing (dates : List ℤ) (weights : List ℚ) (maW : ℕ)
    (useEwma : Bool) : Option (String × List ℤ × List ℚ) :=
  let rm := rolling_mean weights maW
  if rm.any (fun v => v.isSome) then
    let aligned := alignedRM dates weights maW
    if 2 ≤ aligned.length then
      some ("rolling_mean", aligned.map Prod.fst, aligned.map Prod.snd)
    else if useEwma then some ("ewma", dates, ewma weights maW) else none
  else if useEwma then some ("ewma", dates, ewma weights maW) else none

/-- The half split of lines 167-175: date-midpoint split of the window
points, falling back to an index split of the raw weights when either
date half is empty. -/
def splitHalves (window_points : List (ℤ × ℚ)) (midpoint : ℤ) :
    List ℚ × List ℚ :=
  let weights := window_points.map Prod.snd
  let n := window_points.length
  let firstH := (window_points.filter fun q => decide (q.1 ≤ midpoint)).map Prod.snd
  let lastH := (window_points.filter fun q => decide (midpoint < q.1)).map Prod.snd
  if firstH = [] ∨ lastH = [] then
    ((if 0 < n / 2 then weights.take (n / 2) else weights.take 1),
     (if n / 2 < n then weights.drop (n / 2) else weights.drop (n - 1)))
  else (firstH, lastH)

/-- The sodium confounder block (lines 194-208): with a truthy
`sodium_series` (present and non-empty), clean it (exceptions propagate),
filter to the window, count entries `≥ sodium_spike_mg`, and emit the flag
when detection is positive and the count reaches
`sodium_spike_days_flag`. -/
def sodiumFlags (parse : String → Option ℤ)
    (sodium_series : Option (List SRecord)) (start_date end_date : ℤ)
    (detected : Bool) (p : Params) : Except PyErr (List String) :=
  match sodium_series with
  | none => .ok []
  | some [] => .ok []
  | some (r :: rs) =>
    match cleanSodium parse (r :: rs) with
    | .error e => .error e
    | .ok sodium_cleaned =>
      let sodium_window := (sodium_cleaned.filter fun q =>
        decide (start_date ≤ q.1 ∧ q.1 ≤ end_date)).map Prod.snd
      let spike_days :=
        (sodium_window.filter fun s => decide (p.sodium_spike_mg ≤ s)).length
      if detected ∧ p.sodium_spike_days_flag ≤ (spike_days : ℤ) then
        .ok ["possible_water_retention_high_sodium"]
      else .ok []

/-- Line 104: `cleaned.sort(key=lambda x: x[0])` — stable sort by date. -/
def sortCleaned (cleaned0 : List (ℤ × ℚ)) : List (ℤ × ℚ) :=
  cleaned0.insertionSort fun a b => a.1 ≤ b.1

/-- Line 112: `end_date = cleaned[-1][0]` (callers ensure non-emptiness). -/
def endDate (cleaned : List (ℤ × ℚ)) : ℤ := (cleaned.getLastD (0, 0)).1

/-- Line 113: `start_date = end_date - timedelta(days=window_days - 1)`. -/
def startDate (cleaned : List (ℤ × ℚ)) (window_days : ℤ) : ℤ :=
  endDate cleaned - (window_days - 1)

/-- Line 116: the samples whose date lies in `[start_date, end_date]`. -/
def windowPoints (cleaned : List (ℤ × ℚ)) (window_days : ℤ) :
    List (ℤ × ℚ) :=
  cleaned.filter fun q =>
    decide (startDate cleaned window_days ≤ q.1 ∧ q.1 ≤ endDate cleaned)

/-- Lines 157-162: regression slope of the smoothed values against days
elapsed since the first smoothed date, converted to a weekly rate. -/
def weeklySlope (dates_s : List ℤ) (smoothed : List ℚ) : ℚ :=
  let d0 := dates_s.headD 0
  let xs := dates_s.map fun d => ((d - d0 : ℤ) : ℚ)
  linear_regression_slope xs smoothed * 7

/-- `detect_plateau` (lines 73-225). -/
def detect_plateau (parse : String → Option ℤ)
    (weighins : List (Option WRecord)) (p : Params)
    (sodium_series : Option (List SRecord)) : Except PyErr Report :=
  match cleanWeighins parse weighins with
  | .error e => .error e
  | .ok cleaned0 =>
    let cleaned := sortCleaned cleaned0
    if cleaned = [] then
      .ok { detected := false, reason := some "no_weighins" }
    else
      let end_date := endDate cleaned
      let start_date := startDate cleaned p.window_days
      let window_points := windowPoints cleaned p.window_days
      let n := window_points.length
      if (n : ℤ) < max 2 p.min_weighins then
        .ok { detected := false, reason := some "insufficient_weighins",
              window_days := some p.window_days,
              weighins_count := some n,
              required_min := some p.min_weighins,
              window_start := some start_date,
              window_end := some end_date }
      else
        let dates := window_points.map Prod.fst
        let weights := window_points.map Prod.snd
        match chooseSmoothing dates weights p.ma_window_points
            p.use_ewma_if_sparse with
        | none => .error .nameError
        | some (method, dates_s, smoothed) =>
          let slope_week := weeklySlope dates_s smoothed
          let midpoint := start_date + Int.fdiv p.window_days 2
          let halves := splitHalves window_points midpoint
          match pymedian halves.1 with
          | .error e => .error e
          | .ok first_med =>
            match pymedian halves.2 with
            | .error e => .error e
            | .ok last_med =>
              let net := last_med - first_med
              let flat_trend := decide (|slope_week| < p.slope_flat_lbs_per_week)
              let small_change := decide (|net| < p.net_change_lbs)
              let detected := flat_trend && small_change
              let severity : Option String :=
                if detected then
                  if |slope_week| < p.strong_slope_lbs_per_week ∧
                      |net| < p.strong_net_change_lbs
                  then some "strong" else some "mild"
                else none
              match sodiumFlags parse sodium_series start_date end_date
                  detected p with
              | .error e => .error e
              | .ok flags =>
                .ok { detected := detected,
                      window_days := some p.window_days,
                      window_start := some start_date,
                      window_end := some end_date,
                      weighins_count := some n,
                      smoothing := some method,
                      slope_lbs_per_week := some (pyRound slope_week 3),
                      first_half_median := some (pyRound first_med 2),
                      last_half_median := some (pyRound last_med 2),
                      net_change_lbs := some (pyRound net 2),
                      flat_trend := some flat_trend,
                      small_change := some small_change,
                      severity := severity,
                      flags := some flags }

/-! ## Basic facts about the helpers -/

lemma sortCleaned_eq_nil_iff {l : List (ℤ × ℚ)} :
    sortCleaned l = [] ↔ l = [] := by
  unfold sortCleaned
  rw [← List.length_eq_zero, List.length_insertionSort, List.length_eq_zero]

lemma ewma_length (values : List ℚ) (span : ℕ) :
    (ewma values span).length = values.length := by
  unfold ewma
  cases values with
  | nil => rfl
  | cons v rest => simpa using List.length_scanl _ _

lemma pymedian_ok {l : List ℚ} (h : l ≠ []) : ∃ m, pymedian l = .ok m := by
  unfold pymedian
  rw [if_neg h]
  dsimp only
  split <;> exact ⟨_, rfl⟩

lemma pymedian_bounds {l : List ℚ} {lo hi : ℚ} (hne : l ≠ [])
    (hlo : ∀ x ∈ l, lo ≤ x) (hhi : ∀ x ∈ l, x ≤ hi) :
    ∃ m, pymedian l = .ok m ∧ lo ≤ m ∧ m ≤ hi := by
  unfold pymedian
  rw [if_neg hne]
  dsimp only
  have hlen : (l.insertionSort (· ≤ ·)).length = l.length :=
    List.length_insertionSort _ _
  have hpos : 0 < l.length := List.length_pos.mpr hne
  have hmem : ∀ k (hk : k < (l.insertionSort (· ≤ ·)).length),
      lo ≤ (l.insertionSort (· ≤ ·)).getD k 0 ∧
        (l.insertionSort (· ≤ ·)).getD k 0 ≤ hi := by
    intro k hk
    rw [List.getD_eq_getElem _ _ hk]
    have hx : (l.insertionSort (· ≤ ·))[k] ∈ l :=
      (List.mem_insertionSort _).mp (List.getElem_mem hk)
    exact ⟨hlo _ hx, hhi _ hx⟩
  split
  case isTrue hodd =>
    have hk : (l.insertionSort (· ≤ ·)).length / 2 <
        (l.insertionSort (· ≤ ·)).length :=
      Nat.div_lt_self (hlen ▸ hpos) one_lt_two
    exact ⟨_, rfl, (hmem _ hk).1, (hmem _ hk).2⟩
  case isFalse heven =>
    have h2 : 2 ≤ (l.insertionSort (· ≤ ·)).length := by
      rcases Nat.lt_or_ge (l.insertionSort (· ≤ ·)).length 2 with h | h
      · interval_cases hh : (l.insertionSort (· ≤ ·)).length
        · omega
        · exact absurd hh (by omega)
      · exact h
    have hk : (l.insertionSort (· ≤ ·)).length / 2 <
        (l.insertionSort (· ≤ ·)).length :=
      Nat.div_lt_self (hlen ▸ hpos) one_lt_two
    have hk1 : (l.insertionSort (· ≤ ·)).length / 2 - 1 <
        (l.insertionSort (· ≤ ·)).length := by omega
    obtain ⟨ha1, ha2⟩ := hmem _ hk1
    obtain ⟨hb1, hb2⟩ := hmem _ hk
    exact ⟨_, rfl, by linarith, by linarith⟩

lemma splitHalves_ne_nil {wp : List (ℤ × ℚ)} (h2 : 2 ≤ wp.length)
    (mid : ℤ) :
    (splitHalves wp mid).1 ≠ [] ∧ (splitHalves wp mid).2 ≠ [] := by
  unfold splitHalves
  dsimp only
  split
  case isTrue h =>
    have hhalf : 0 < wp.length / 2 := by omega
    have hlt : wp.length / 2 < wp.length := Nat.div_lt_self (by omega) one_lt_two
    rw [if_pos hhalf, if_pos hlt]
    constructor
    · rw [← List.length_pos, List.length_take, List.length_map]
      omega
    · rw [← List.length_pos, List.length_drop, List.length_map]
      omega
  case isFalse h =>
    push_neg at h
    exact h

lemma splitHalves_fst_subset {wp : List (ℤ × ℚ)} {mid : ℤ} {x : ℚ}
    (hx : x ∈ (splitHalves wp mid).1) : x ∈ wp.map Prod.snd := by
  unfold splitHalves at hx
  dsimp only at hx
  split at hx
  · split at hx
    · exact List.mem_of_mem_take hx
    · exact List.mem_of_mem_take hx
  · simp only [List.mem_map, List.mem_filter] at hx ⊢
    obtain ⟨q, ⟨hq, _⟩, rfl⟩ := hx
    exact ⟨q, hq, rfl⟩

lemma splitHalves_snd_subset {wp : List (ℤ × ℚ)} {mid : ℤ} {x : ℚ}
    (hx : x ∈ (splitHalves wp mid).2) : x ∈ wp.map Prod.snd := by
  unfold splitHalves at hx
  dsimp only at hx
  split at hx
  · dsimp only at hx
    split at hx
    · exact List.mem_of_mem_drop hx
    · exact List.mem_of_mem_drop hx
  · simp only [List.mem_map, List.mem_filter] at hx ⊢
    obtain ⟨q, ⟨hq, _⟩, rfl⟩ := hx
    exact ⟨q, hq, rfl⟩

lemma chooseSmoothing_isSome (dates : List ℤ) (weights : List ℚ)
    (maW : ℕ) : (chooseSmoothing dates weights maW true).isSome := by
  unfold chooseSmoothing
  dsimp only
  split <;> [skip; simp]
  split <;> simp

lemma chooseSmoothing_sparse (dates : List ℤ) (weights : List ℚ)
    (maW : ℕ) (h : (alignedRM dates weights maW).length < 2) :
    chooseSmoothing dates weights maW true =
      some ("ewma", dates, ewma weights maW) := by
  unfold chooseSmoothing
  dsimp only
  split
  · rw [if_neg (by omega)]
    rfl
  · rfl

lemma chooseSmoothing_sparse_none (dates : List ℤ) (weights : List ℚ)
    (maW : ℕ) (h : (alignedRM dates weights maW).length < 2) :
    chooseSmoothing dates weights maW false = none := by
  unfold chooseSmoothing
  dsimp only
  split
  · rw [if_neg (by omega)]
    rfl
  · rfl

/-! ## Characterization of the three return paths of `detect_plateau` -/

lemma detect_plateau_no_weighins (parse : String → Option ℤ)
    (wi : List (Option WRecord)) (p : Params)
    (sod : Option (List SRecord)) (hc : cleanWeighins parse wi = .ok []) :
    detect_plateau parse wi p sod =
      .ok { detected := false, reason := some "no_weighins" } := by
  unfold detect_plateau
  rw [hc]
  rfl

lemma detect_plateau_insufficient (parse : String → Option ℤ)
    (wi : List (Option WRecord)) (p : Params) (sod : Option (List SRecord))
    (cl0 : List (ℤ × ℚ)) (hc : cleanWeighins parse wi = .ok cl0)
    (hne : cl0 ≠ [])
    (hlt : ((windowPoints (sortCleaned cl0) p.window_days).length : ℤ) <
      max 2 p.min_weighins) :
    detect_plateau parse wi p sod =
      .ok { detected := false, reason := some "insufficient_weighins",
            window_days := some p.window_days,
            weighins_count :=
              some (windowPoints (sortCleaned cl0) p.window_days).length,
            required_min := some p.min_weighins,
            window_start :=
              some (startDate (sortCleaned cl0) p.window_days),
            window_end := some (endDate (sortCleaned cl0)) } := by
  unfold detect_plateau
  rw [hc]
  dsimp only
  rw [if_neg (fun h => hne (sortCleaned_eq_nil_iff.mp h)), if_pos hlt]

lemma detect_plateau_full (parse : String → Option ℤ)
    (wi : List (Option WRecord)) (p : Params) (sod : Option (List SRecord))
    (cl0 : List (ℤ × ℚ)) (method : String) (ds : List ℤ) (sm : List ℚ)
    (m1 m2 : ℚ) (fl : List String)
    (hc : cleanWeighins parse wi = .ok cl0) (hne : cl0 ≠ [])
    (hge : ¬ ((windowPoints (sortCleaned cl0) p.window_days).length : ℤ) <
      max 2 p.min_weighins)
    (hsm : chooseSmoothing
        ((windowPoints (sortCleaned cl0) p.window_days).map Prod.fst)
        ((windowPoints (sortCleaned cl0) p.window_days).map Prod.snd)
        p.ma_window_points p.use_ewma_if_sparse = some (method, ds, sm))
    (hm1 : pymedian (splitHalves (windowPoints (sortCleaned cl0) p.window_days)
        (startDate (sortCleaned cl0) p.window_days +
          Int.fdiv p.window_days 2)).1 = .ok m1)
    (hm2 : pymedian (splitHalves (windowPoints (sortCleaned cl0) p.window_days)
        (startDate (sortCleaned cl0) p.window_days +
          Int.fdiv p.window_days 2)).2 = .ok m2)
    (hfl : sodiumFlags parse sod (startDate (sortCleaned cl0) p.window_days)
        (endDate (sortCleaned cl0))
        (decide (|weeklySlope ds sm| < p.slope_flat_lbs_per_week) &&
          decide (|m2 - m1| < p.net_change_lbs)) p = .ok fl) :
    detect_plateau parse wi p sod = .ok
      { detected := decide (|weeklySlope ds sm| < p.slope_flat_lbs_per_week) &&
          decide (|m2 - m1| < p.net_change_lbs),
        window_days := some p.window_days,
        window_start := some (startDate (sortCleaned cl0) p.window_days),
        window_end := some (endDate (sortCleaned cl0)),
        weighins_count :=
          some (windowPoints (sortCleaned cl0) p.window_days).length,
        smoothing := some method,
        slope_lbs_per_week := some (pyRound (weeklySlope ds sm) 3),
        first_half_median := some (pyRound m1 2),
        last_half_median := some (pyRound m2 2),
        net_change_lbs := some (pyRound (m2 - m1) 2),
        flat_trend :=
          some (decide (|weeklySlope ds sm| < p.slope_flat_lbs_per_week)),
        small_change := some (decide (|m2 - m1| < p.net_change_lbs)),
        severity :=
          if (decide (|weeklySlope ds sm| < p.slope_flat_lbs_per_week) &&
              decide (|m2 - m1| < p.net_change_lbs) : Bool) then
            if |weeklySlope ds sm| < p.strong_slope_lbs_per_week ∧
                |m2 - m1| < p.strong_net_change_lbs
            then some "strong" else some "mild"
          else none,
        flags := some fl } := by
  unfold detect_plateau
  rw [hc]
  dsimp only
  rw [if_neg (fun h => hne (sortCleaned_eq_nil_iff.mp h)), if_neg hge, hsm]
  dsimp only
  rw [hm1]
  dsimp only
  rw [hm2]
  dsimp only
  rw [hfl]

lemma detect_reason_of_ok (parse : String → Option ℤ)
    (wi : List (Option WRecord)) (p : Params) (sod : Option (List SRecord))
    (cl0 : List (ℤ × ℚ)) (r : Report)
    (hc : cleanWeighins parse wi = .ok cl0) (hne : cl0 ≠ [])
    (h : detect_plateau parse wi p sod = .ok r) :
    r.reason = some "insufficient_weighins" ∨ r.reason = none := by
  unfold detect_plateau at h
  rw [hc] at h
  dsimp only at h
  rw [if_neg (fun hx => hne (sortCleaned_eq_nil_iff.mp hx))] at h
  split at h
  · injection h with h'
    subst h'
    exact Or.inl rfl
  · split at h
    · exact Except.noConfusion h
    · split at h
      · exact Except.noConfusion h
      · split at h
        · exact Except.noConfusion h
        · split at h
          · exact Except.noConfusion h
          · injection h with h'
            subst h'
            exact Or.inr rfl

/-! ## The claims -/

/-- Claim C2: given that the input cleans without an exception,
`detect_plateau` returns a report with `detected = false` and
`reason = "no_weighins"` exactly when the cleaned series is empty; and
otherwise, when the windowed sample count is strictly below
`max 2 min_weighins`, it returns the "insufficient_weighins" report carrying
exactly the window context fields and none of the smoothing, slope or
median statistics. -/
theorem claim_C2 (parse : String → Option ℤ) (wi : List (Option WRecord))
    (p : Params) (sod : Option (List SRecord)) (cl0 : List (ℤ × ℚ))
    (hc : cleanWeighins parse wi = .ok cl0) :
    ((∃ r, detect_plateau parse wi p sod = .ok r ∧ r.detected = false ∧
        r.reason = some "no_weighins") ↔ cl0 = []) ∧
    (cl0 ≠ [] →
      ((windowPoints (sortCleaned cl0) p.window_days).length : ℤ) <
        max 2 p.min_weighins →
      detect_plateau parse wi p sod =
        .ok { detected := false, reason := some "insufficient_weighins",
              window_days := some p.window_days,
              weighins_count :=
                some (windowPoints (sortCleaned cl0) p.window_days).length,
              required_min := some p.min_weighins,
              window_start :=
                some (startDate (sortCleaned cl0) p.window_days),
              window_end := some (endDate (sortCleaned cl0)) }) := by
  constructor
  · constructor
    · rintro ⟨r, hr, _, hreason⟩
      by_contra hne
      rcases detect_reason_of_ok parse wi p sod cl0 r hc hne hr with h | h
      · rw [hreason] at h
        exact absurd h (by decide)
      · rw [hreason] at h
        exact Option.noConfusion h
    · rintro rfl
      exact ⟨_, detect_plateau_no_weighins parse wi p sod hc, rfl, rfl⟩
  · intro hne hlt
    exact detect_plateau_insufficient parse wi p sod cl0 hc hne hlt

/-- Witness for C2: at the empty input list the hypotheses hold and the
"no_weighins" report is returned. -/
theorem claim_C2_witness :
    ∃ r, detect_plateau (fun _ => none) [] {} none = .ok r ∧
      r.detected = false ∧ r.reason = some "no_weighins" :=
  (claim_C2 (fun _ => none) [] {} none [] rfl).1.mpr rfl

lemma two_le_of_gate {n : ℕ} {minW : ℤ} (hge : ¬ (n : ℤ) < max 2 minW) :
    2 ≤ n := by
  push_neg at hge
  have h2 : (2 : ℤ) ≤ n := le_trans (le_max_left 2 minW) hge
  exact_mod_cast h2

lemma detect_plateau_nameError (parse : String → Option ℤ)
    (wi : List (Option WRecord)) (p : Params) (sod : Option (List SRecord))
    (cl0 : List (ℤ × ℚ)) (hc : cleanWeighins parse wi = .ok cl0)
    (hne : cl0 ≠ [])
    (hge : ¬ ((windowPoints (sortCleaned cl0) p.window_days).length : ℤ) <
      max 2 p.min_weighins)
    (hcs : chooseSmoothing
        ((windowPoints (sortCleaned cl0) p.window_days).map Prod.fst)
        ((windowPoints (sortCleaned cl0) p.window_days).map Prod.snd)
        p.ma_window_points p.use_ewma_if_sparse = none) :
    detect_plateau parse wi p sod = .error .nameError := by
  unfold detect_plateau
  rw [hc]
  dsimp only
  rw [if_neg (fun hx => hne (sortCleaned_eq_nil_iff.mp hx)), if_neg hge, hcs]

/-- Claim C3 counterexample: a record all of whose candidate date keys are
absent is NOT silently dropped — cleaning raises `TypeError` (the `or`
chain hands `None` to `_to_date`); likewise an unparseable date string
raises `ValueError` instead of being dropped.  Both aborts surface from
`detect_plateau` itself. -/
theorem claim_C3_counterexample :
    cleanWeighins (fun _ => none) [some { weight := some 150 }] =
      .error .typeError ∧
    cleanWeighins (fun _ => none)
      [some { date := .vstr "not-a-date", weight := some 150 }] =
      .error .valueError ∧
    detect_plateau (fun _ => none) [some { weight := some 150 }] {} none =
      .error .typeError := by
  exact ⟨rfl, rfl, rfl⟩

/-- Claim C3 as amended: a weigh-in row is silently dropped when it is
`None`, or when its date normalizes but its weight is absent; when all
candidate date keys are absent the `or` chain yields `None` and cleaning
raises `TypeError`; a present-but-unparseable date string raises
`ValueError`; and a wholly unsupported present date type raises
`TypeError`. -/
theorem claim_C3_amended (parse : String → Option ℤ)
    (rest : List (Option WRecord)) (row : WRecord) (s : String) :
    (cleanWeighins parse (none :: rest) = cleanWeighins parse rest) ∧
    (pyOr (pyOr row.date row.logged_at) row.weighed_at = .vnone →
      cleanWeighins parse (some row :: rest) = .error .typeError) ∧
    (∀ d, to_date parse (pyOr (pyOr row.date row.logged_at) row.weighed_at) =
        .ok d → row.weight = none →
      cleanWeighins parse (some row :: rest) = cleanWeighins parse rest) ∧
    (pyOr (pyOr row.date row.logged_at) row.weighed_at = .vstr s →
      parse s = none →
      cleanWeighins parse (some row :: rest) = .error .valueError) ∧
    (∀ t, pyOr (pyOr row.date row.logged_at) row.weighed_at = .vother t →
      cleanWeighins parse (some row :: rest) = .error .typeError) := by
  refine ⟨rfl, ?_, ?_, ?_, ?_⟩
  · intro h
    simp only [cleanWeighins, h]
    rfl
  · intro d hd hw
    simp only [cleanWeighins, hd, hw]
  · intro h hp
    simp only [cleanWeighins, h, to_date, hp]
  · intro t h
    simp only [cleanWeighins, h]
    rfl

/-- Witness for the amended C3 at concrete rows: an unparseable string
raises `ValueError`, and a date-carrying row with no weight is dropped. -/
theorem claim_C3_amended_witness :
    cleanWeighins (fun _ => none)
      [some { date := .vstr "bad", weight := some 150 }] =
      .error .valueError ∧
    cleanWeighins (fun _ => none) [some { date := .vdate 0 }] =
      cleanWeighins (fun _ => none) [] :=
  ⟨(claim_C3_amended (fun _ => none) []
      { date := .vstr "bad", weight := some 150 } "bad").2.2.2.1 rfl rfl,
   (claim_C3_amended (fun _ => none) [] { date := .vdate 0 } "").2.2.1
      0 rfl rfl⟩

/-- Claim C8: once the sufficiency gate has passed (so the window holds at
least `max 2 min_weighins ≥ 2` samples), both halves produced by
`splitHalves` — the date-midpoint split or its index-based fallback — are
non-empty, and hence `_median` succeeds on both (its empty-list error
branch is unreachable). -/
theorem claim_C8 (cl0 : List (ℤ × ℚ)) (p : Params) (mid : ℤ)
    (hge : ¬ ((windowPoints (sortCleaned cl0) p.window_days).length : ℤ) <
      max 2 p.min_weighins) :
    (splitHalves (windowPoints (sortCleaned cl0) p.window_days) mid).1 ≠ [] ∧
    (splitHalves (windowPoints (sortCleaned cl0) p.window_days) mid).2 ≠ [] ∧
    (∃ q1, pymedian
      (splitHalves (windowPoints (sortCleaned cl0) p.window_days) mid).1 =
        .ok q1) ∧
    (∃ q2, pymedian
      (splitHalves (windowPoints (sortCleaned cl0) p.window_days) mid).2 =
        .ok q2) := by
  obtain ⟨h1, h2⟩ := splitHalves_ne_nil (two_le_of_gate hge) mid
  exact ⟨h1, h2, pymedian_ok h1, pymedian_ok h2⟩

/-- Witness for C8 at a concrete two-point window with
`min_weighins = 2`. -/
theorem claim_C8_witness :
    (splitHalves (windowPoints (sortCleaned [((0 : ℤ), (150 : ℚ)), (1, 151)])
        (14 : ℤ)) 7).1 ≠ [] ∧
    (splitHalves (windowPoints (sortCleaned [((0 : ℤ), (150 : ℚ)), (1, 151)])
        (14 : ℤ)) 7).2 ≠ [] ∧
    (∃ q1, pymedian (splitHalves (windowPoints
        (sortCleaned [((0 : ℤ), (150 : ℚ)), (1, 151)]) (14 : ℤ)) 7).1 =
      .ok q1) ∧
    (∃ q2, pymedian (splitHalves (windowPoints
        (sortCleaned [((0 : ℤ), (150 : ℚ)), (1, 151)]) (14 : ℤ)) 7).2 =
      .ok q2) :=
  claim_C8 [((0 : ℤ), (150 : ℚ)), (1, 151)]
    { window_days := 14, min_weighins := 2 } 7 (by decide)

/-- Claim C1: on every input that passes the sufficiency gate and yields a
report, the gates of the report are exactly the threshold comparisons on
the (unrounded) weekly regression slope of the smoothed series and on the
median net change: `flat_trend ↔ |weekly slope| < slope_flat_lbs_per_week`,
`small_change ↔ |net| < net_change_lbs`, `detected = flat_trend AND
small_change`; when detected, severity is `"strong"` iff both stricter
thresholds hold and `"mild"` otherwise; when not detected, severity is
absent. -/
theorem claim_C1 (parse : String → Option ℤ) (wi : List (Option WRecord))
    (p : Params) (cl0 : List (ℤ × ℚ)) (r : Report)
    (hc : cleanWeighins parse wi = .ok cl0) (hne : cl0 ≠ [])
    (hge : ¬ ((windowPoints (sortCleaned cl0) p.window_days).length : ℤ) <
      max 2 p.min_weighins)
    (hr : detect_plateau parse wi p none = .ok r) :
    ∃ method ds sm m1 m2,
      chooseSmoothing
        ((windowPoints (sortCleaned cl0) p.window_days).map Prod.fst)
        ((windowPoints (sortCleaned cl0) p.window_days).map Prod.snd)
        p.ma_window_points p.use_ewma_if_sparse = some (method, ds, sm) ∧
      pymedian (splitHalves (windowPoints (sortCleaned cl0) p.window_days)
        (startDate (sortCleaned cl0) p.window_days +
          Int.fdiv p.window_days 2)).1 = .ok m1 ∧
      pymedian (splitHalves (windowPoints (sortCleaned cl0) p.window_days)
        (startDate (sortCleaned cl0) p.window_days +
          Int.fdiv p.window_days 2)).2 = .ok m2 ∧
      (r.flat_trend = some true ↔
        |weeklySlope ds sm| < p.slope_flat_lbs_per_week) ∧
      (r.small_change = some true ↔ |m2 - m1| < p.net_change_lbs) ∧
      (r.detected = true ↔
        (r.flat_trend = some true ∧ r.small_change = some true)) ∧
      (r.detected = true →
        ((r.severity = some "strong" ↔
          (|weeklySlope ds sm| < p.strong_slope_lbs_per_week ∧
            |m2 - m1| < p.strong_net_change_lbs)) ∧
         (r.severity = some "strong" ∨ r.severity = some "mild"))) ∧
      (r.detected = false → r.severity = none) := by
  have h2 := two_le_of_gate hge
  obtain ⟨h1ne, h2ne⟩ := splitHalves_ne_nil h2
    (startDate (sortCleaned cl0) p.window_days + Int.fdiv p.window_days 2)
  obtain ⟨m1, hm1⟩ := pymedian_ok h1ne
  obtain ⟨m2, hm2⟩ := pymedian_ok h2ne
  rcases hcs : chooseSmoothing
      ((windowPoints (sortCleaned cl0) p.window_days).map Prod.fst)
      ((windowPoints (sortCleaned cl0) p.window_days).map Prod.snd)
      p.ma_window_points p.use_ewma_if_sparse with _ | ⟨method, ds, sm⟩
  · rw [detect_plateau_nameError parse wi p none cl0 hc hne hge hcs] at hr
    exact Except.noConfusion hr
  · have hfull := detect_plateau_full parse wi p none cl0 method ds sm m1 m2
      [] hc hne hge hcs hm1 hm2 rfl
    rw [hfull] at hr
    injection hr with hr'
    subst hr'
    refine ⟨method, ds, sm, m1, m2, rfl, hm1, hm2, ?_, ?_, ?_, ?_, ?_⟩
    · simp
    · simp
    · simp
    · intro hdet
      have hdet' : (decide (|weeklySlope ds sm| < p.slope_flat_lbs_per_week)
          && decide (|m2 - m1| < p.net_change_lbs)) = true := hdet
      by_cases hstrong : |weeklySlope ds sm| < p.strong_slope_lbs_per_week ∧
          |m2 - m1| < p.strong_net_change_lbs
      · constructor
        · simp [hdet', hstrong]
        · simp [hdet', hstrong]
      · constructor
        · simp only [Report.severity, hdet', if_true, if_neg hstrong]
          simp [hstrong]
        · simp only [Report.severity, hdet', if_true, if_neg hstrong]
          simp
    · intro hdet
      have hdet' : (decide (|weeklySlope ds sm| < p.slope_flat_lbs_per_week)
          && decide (|m2 - m1| < p.net_change_lbs)) = false := hdet
      simp [hdet']

/-- A concrete flat series: one sample of weight 150 on each of days
0-13. -/
def flatSeries : List (Option WRecord) :=
  (List.range 14).map fun i => some { date := .vdate (i : ℤ), weight := some 150 }

/-- The cleaned form of `flatSeries`. -/
def flatCleaned : List (ℤ × ℚ) :=
  (List.range 14).map fun i => ((i : ℤ), (150 : ℚ))

/-- The report `detect_plateau` produces on `flatSeries` with default
parameters and no sodium series. -/
def flatReport : Report :=
  { detected := true, window_days := some 14, window_start := some 0,
    window_end := some 13, weighins_count := some 14,
    smoothing := some "rolling_mean", slope_lbs_per_week := some 0,
    first_half_median := some 150, last_half_median := some 150,
    net_change_lbs := some 0, flat_trend := some true,
    small_change := some true, severity := some "strong",
    flags := some [] }

/-- Evaluation of the full pipeline on `flatSeries` (Batteries marks `ℚ`
arithmetic `irreducible`, so the run is evaluated by `norm_num` through the
path characterization rather than by kernel reduction). -/
lemma flat_run :
    detect_plateau (fun _ => none) flatSeries {} none = .ok flatReport := by
  have h := detect_plateau_full (fun _ => none) flatSeries {} none
    flatCleaned "rolling_mean" [6, 7, 8, 9, 10, 11, 12, 13]
    [150, 150, 150, 150, 150, 150, 150, 150] 150 150 []
    rfl (by decide) (by decide)
    (by norm_num [chooseSmoothing, alignedRM, rolling_mean, flatCleaned,
      windowPoints, sortCleaned, startDate, endDate, List.range_succ,
      List.insertionSort, List.orderedInsert, List.filterMap_cons,
      Option.map_some, Option.map_none])
    (by norm_num [pymedian, splitHalves, windowPoints, sortCleaned,
      startDate, endDate, flatCleaned, List.range_succ, List.insertionSort,
      List.orderedInsert, Int.fdiv, List.cons_ne_nil])
    (by norm_num [pymedian, splitHalves, windowPoints, sortCleaned,
      startDate, endDate, flatCleaned, List.range_succ, List.insertionSort,
      List.orderedInsert, Int.fdiv, List.cons_ne_nil])
    rfl
  rw [h]
  norm_num [weeklySlope, linear_regression_slope, pyRound, roundHalfToEven,
    flatReport, windowPoints, sortCleaned, startDate, endDate, flatCleaned,
    List.range_succ]

/-- Witness for C1: the hypotheses hold at the concrete flat series, and
the instantiated claim yields the gate identity of its report. -/
theorem claim_C1_witness :
    cleanWeighins (fun _ => none) flatSeries = .ok flatCleaned ∧
    detect_plateau (fun _ => none) flatSeries {} none = .ok flatReport ∧
    (flatReport.detected = true ↔
      (flatReport.flat_trend = some true ∧
        flatReport.small_change = some true)) := by
  refine ⟨rfl, flat_run, ?_⟩
  obtain ⟨method, ds, sm, m1, m2, _, _, _, _, _, h6, _, _⟩ :=
    claim_C1 (fun _ => none) flatSeries {} flatCleaned flatReport rfl
      (by decide) (by decide) flat_run
  exact h6

/-- Claim C9 (implicit): past the sufficiency gate, with
`use_ewma_if_sparse = true` the call always returns a full report (no
exception): whenever fewer than 2 aligned rolling-mean points exist, the
EWMA fallback is chosen and yields exactly one smoothed value per windowed
sample, aligned with all the window dates; with `use_ewma_if_sparse =
false` and fewer than 2 aligned points, the unassigned `dates_s` is read
and the call aborts (modelled as `NameError`). -/
theorem claim_C9 (parse : String → Option ℤ) (wi : List (Option WRecord))
    (p : Params) (cl0 : List (ℤ × ℚ))
    (hc : cleanWeighins parse wi = .ok cl0) (hne : cl0 ≠ [])
    (hge : ¬ ((windowPoints (sortCleaned cl0) p.window_days).length : ℤ) <
      max 2 p.min_weighins) :
    (p.use_ewma_if_sparse = true →
      ∃ r, detect_plateau parse wi p none = .ok r ∧ r.reason = none ∧
        r.smoothing ≠ none) ∧
    ((alignedRM ((windowPoints (sortCleaned cl0) p.window_days).map Prod.fst)
        ((windowPoints (sortCleaned cl0) p.window_days).map Prod.snd)
        p.ma_window_points).length < 2 →
      chooseSmoothing
          ((windowPoints (sortCleaned cl0) p.window_days).map Prod.fst)
          ((windowPoints (sortCleaned cl0) p.window_days).map Prod.snd)
          p.ma_window_points true =
        some ("ewma",
          (windowPoints (sortCleaned cl0) p.window_days).map Prod.fst,
          ewma ((windowPoints (sortCleaned cl0) p.window_days).map Prod.snd)
            p.ma_window_points) ∧
      (ewma ((windowPoints (sortCleaned cl0) p.window_days).map Prod.snd)
          p.ma_window_points).length =
        ((windowPoints (sortCleaned cl0) p.window_days).map Prod.snd).length) ∧
    (p.use_ewma_if_sparse = false →
      (alignedRM ((windowPoints (sortCleaned cl0) p.window_days).map Prod.fst)
        ((windowPoints (sortCleaned cl0) p.window_days).map Prod.snd)
        p.ma_window_points).length < 2 →
      detect_plateau parse wi p none = .error .nameError) := by
  have h2 := two_le_of_gate hge
  obtain ⟨h1ne, h2ne⟩ := splitHalves_ne_nil h2
    (startDate (sortCleaned cl0) p.window_days + Int.fdiv p.window_days 2)
  obtain ⟨m1, hm1⟩ := pymedian_ok h1ne
  obtain ⟨m2, hm2⟩ := pymedian_ok h2ne
  refine ⟨?_, ?_, ?_⟩
  · intro hewma
    have hsome := chooseSmoothing_isSome
      ((windowPoints (sortCleaned cl0) p.window_days).map Prod.fst)
      ((windowPoints (sortCleaned cl0) p.window_days).map Prod.snd)
      p.ma_window_points
    rw [Option.isSome_iff_exists] at hsome
    obtain ⟨⟨method, ds, sm⟩, hcs⟩ := hsome
    have hfull := detect_plateau_full parse wi p none cl0 method ds sm m1 m2
      [] hc hne hge (by rw [hewma]; exact hcs) hm1 hm2 rfl
    exact ⟨_, hfull, rfl, by simp⟩
  · intro hsparse
    exact ⟨chooseSmoothing_sparse _ _ _ hsparse, ewma_length _ _⟩
  · intro hfalse hsparse
    exact detect_plateau_nameError parse wi p none cl0 hc hne hge
      (by rw [hfalse]; exact chooseSmoothing_sparse_none _ _ _ hsparse)

/-- Witness for C9: at the concrete flat series with default parameters
(`use_ewma_if_sparse = true`), the call returns a full report. -/
theorem claim_C9_witness :
    ∃ r, detect_plateau (fun _ => none) flatSeries {} none = .ok r ∧
      r.reason = none ∧ r.smoothing ≠ none :=
  (claim_C9 (fun _ => none) flatSeries {} flatCleaned rfl (by decide)
    (by decide)).1 rfl

/-- Unfolding of the sodium block on a truthy series that cleans without
error: the flag list is `["possible_water_retention_high_sodium"]` when
detection is positive and the count of windowed sodium SAMPLES at or above
the spike threshold reaches `sodium_spike_days_flag`, else `[]`. -/
lemma sodiumFlags_of_clean (parse : String → Option ℤ) (srec : SRecord)
    (srest : List SRecord) (sc : List (ℤ × ℚ)) (start_date end_date : ℤ)
    (b : Bool) (p : Params)
    (hsc : cleanSodium parse (srec :: srest) = .ok sc) :
    sodiumFlags parse (some (srec :: srest)) start_date end_date b p =
      .ok (if b ∧ p.sodium_spike_days_flag ≤
          (((((sc.filter fun q =>
              decide (start_date ≤ q.1 ∧ q.1 ≤ end_date)).map
                Prod.snd).filter fun s =>
                  decide (p.sodium_spike_mg ≤ s)).length : ℕ) : ℤ)
        then ["possible_water_retention_high_sodium"] else []) := by
  unfold sodiumFlags
  dsimp only
  rw [hsc]
  dsimp only
  split <;> rfl

/-- The spike-day count the CLAIM describes: the number of DISTINCT days
in the window on which the sodium value reaches the threshold.  (Spec-side
definition, for comparison with the per-sample count the code uses.) -/
def spikeDistinctDays (sodium_cleaned : List (ℤ × ℚ))
    (start_date end_date : ℤ) (spike_mg : ℚ) : ℕ :=
  ((sodium_cleaned.filter fun q =>
    decide (start_date ≤ q.1 ∧ q.1 ≤ end_date ∧ spike_mg ≤ q.2)).map
      Prod.fst).dedup.length

/-- Four sodium samples of 2400 mg, all logged on day 10. -/
def sodiumSameDay : List SRecord :=
  [{ date := .vdate 10, sodium := some 2400 },
   { date := .vdate 10, sodium := some 2400 },
   { date := .vdate 10, sodium := some 2400 },
   { date := .vdate 10, sodium := some 2400 }]

/-- The report of the flat run with `sodiumSameDay` supplied: identical to
`flatReport` except that the water-retention flag is raised. -/
def flatSodiumReport : Report :=
  { flatReport with flags := some ["possible_water_retention_high_sodium"] }

/-- Evaluation of the pipeline on `flatSeries` with `sodiumSameDay`. -/
lemma flat_sodium_run :
    detect_plateau (fun _ => none) flatSeries {} (some sodiumSameDay) =
      .ok flatSodiumReport := by
  have h := detect_plateau_full (fun _ => none) flatSeries {}
    (some sodiumSameDay)
    flatCleaned "rolling_mean" [6, 7, 8, 9, 10, 11, 12, 13]
    [150, 150, 150, 150, 150, 150, 150, 150] 150 150
    ["possible_water_retention_high_sodium"]
    rfl (by decide) (by decide)
    (by norm_num [chooseSmoothing, alignedRM, rolling_mean, flatCleaned,
      windowPoints, sortCleaned, startDate, endDate, List.range_succ,
      List.insertionSort, List.orderedInsert, List.filterMap_cons,
      Option.map_some, Option.map_none])
    (by norm_num [pymedian, splitHalves, windowPoints, sortCleaned,
      startDate, endDate, flatCleaned, List.range_succ, List.insertionSort,
      List.orderedInsert, Int.fdiv, List.cons_ne_nil])
    (by norm_num [pymedian, splitHalves, windowPoints, sortCleaned,
      startDate, endDate, flatCleaned, List.range_succ, List.insertionSort,
      List.orderedInsert, Int.fdiv, List.cons_ne_nil])
    (by
      simp only [sodiumSameDay]
      rw [sodiumFlags_of_clean (fun _ => none)
        { date := .vdate 10, sodium := some 2400 }
        [{ date := .vdate 10, sodium := some 2400 },
         { date := .vdate 10, sodium := some 2400 },
         { date := .vdate 10, sodium := some 2400 }]
        [((10 : ℤ), (2400 : ℚ)), (10, 2400), (10, 2400), (10, 2400)]
        _ _ _ _ rfl]
      norm_num [weeklySlope, linear_regression_slope, windowPoints,
        sortCleaned, startDate, endDate, flatCleaned, List.range_succ])
  rw [h]
  norm_num [weeklySlope, linear_regression_slope, pyRound, roundHalfToEven,
    flatSodiumReport, flatReport, windowPoints, sortCleaned, startDate,
    endDate, flatCleaned, List.range_succ]

/-- Claim C7 counterexample: with four same-day sodium spikes the code
raises the flag (it counts windowed SAMPLES, here 4), although the number
of distinct spike DAYS in the window is 1 < 4, so the claim — which
predicates the flag on the day count — is false at this input. -/
theorem claim_C7_counterexample :
    detect_plateau (fun _ => none) flatSeries {} (some sodiumSameDay) =
      .ok flatSodiumReport ∧
    flatSodiumReport.detected = true ∧
    flatSodiumReport.flags =
      some ["possible_water_retention_high_sodium"] ∧
    spikeDistinctDays
      [((10 : ℤ), (2400 : ℚ)), (10, 2400), (10, 2400), (10, 2400)]
      0 13 2300 = 1 ∧
    ¬ ((4 : ℤ) ≤ (spikeDistinctDays
      [((10 : ℤ), (2400 : ℚ)), (10, 2400), (10, 2400), (10, 2400)]
      0 13 2300 : ℤ)) := by
  refine ⟨flat_sodium_run, rfl, rfl, ?_, ?_⟩
  · norm_num [spikeDistinctDays, List.dedup]
  · norm_num [spikeDistinctDays, List.dedup]

/-- Claim C7 as amended: when a non-empty sodium series is supplied and
cleans without error, the quantity compared against
`sodium_spike_days_flag` is the number of windowed sodium SAMPLES whose
value is at least `sodium_spike_mg` (same-day samples each count), and the
flag `"possible_water_retention_high_sodium"` is in the report's flags iff
detection is positive and that sample count reaches the threshold. -/
theorem claim_C7_amended (parse : String → Option ℤ)
    (wi : List (Option WRecord)) (p : Params) (cl0 : List (ℤ × ℚ))
    (srec : SRecord) (srest : List SRecord) (sc : List (ℤ × ℚ)) (r : Report)
    (hc : cleanWeighins parse wi = .ok cl0) (hne : cl0 ≠ [])
    (hge : ¬ ((windowPoints (sortCleaned cl0) p.window_days).length : ℤ) <
      max 2 p.min_weighins)
    (hsc : cleanSodium parse (srec :: srest) = .ok sc)
    (hr : detect_plateau parse wi p (some (srec :: srest)) = .ok r) :
    "possible_water_retention_high_sodium" ∈ r.flags.getD [] ↔
      (r.detected = true ∧ p.sodium_spike_days_flag ≤
        (((((sc.filter fun q =>
            decide (startDate (sortCleaned cl0) p.window_days ≤ q.1 ∧
              q.1 ≤ endDate (sortCleaned cl0))).map Prod.snd).filter fun s =>
                decide (p.sodium_spike_mg ≤ s)).length : ℕ) : ℤ)) := by
  have h2 := two_le_of_gate hge
  obtain ⟨h1ne, h2ne⟩ := splitHalves_ne_nil h2
    (startDate (sortCleaned cl0) p.window_days + Int.fdiv p.window_days 2)
  obtain ⟨m1, hm1⟩ := pymedian_ok h1ne
  obtain ⟨m2, hm2⟩ := pymedian_ok h2ne
  rcases hcs : chooseSmoothing
      ((windowPoints (sortCleaned cl0) p.window_days).map Prod.fst)
      ((windowPoints (sortCleaned cl0) p.window_days).map Prod.snd)
      p.ma_window_points p.use_ewma_if_sparse with _ | ⟨method, ds, sm⟩
  · rw [detect_plateau_nameError parse wi p (some (srec :: srest)) cl0 hc hne
      hge hcs] at hr
    exact Except.noConfusion hr
  · have hfl := sodiumFlags_of_clean parse srec srest sc
      (startDate (sortCleaned cl0) p.window_days) (endDate (sortCleaned cl0))
      (decide (|weeklySlope ds sm| < p.slope_flat_lbs_per_week) &&
        decide (|m2 - m1| < p.net_change_lbs)) p hsc
    have hfull := detect_plateau_full parse wi p (some (srec :: srest)) cl0
      method ds sm m1 m2 _ hc hne hge hcs hm1 hm2 hfl
    rw [hfull] at hr
    injection hr with hr'
    subst hr'
    by_cases hcond : ((decide (|weeklySlope ds sm| <
          p.slope_flat_lbs_per_week) &&
        decide (|m2 - m1| < p.net_change_lbs)) = true ∧
        p.sodium_spike_days_flag ≤
        (((((sc.filter fun q =>
            decide (startDate (sortCleaned cl0) p.window_days ≤ q.1 ∧
              q.1 ≤ endDate (sortCleaned cl0))).map Prod.snd).filter fun s =>
                decide (p.sodium_spike_mg ≤ s)).length : ℕ) : ℤ))
  <;> simp [hcond]

/-- Witness for the amended C7: at the flat series with four same-day
sodium spikes, the flag is present and the sample count is 4. -/
theorem claim_C7_amended_witness :
    "possible_water_retention_high_sodium" ∈
      flatSodiumReport.flags.getD [] ↔
      (flatSodiumReport.detected = true ∧ (4 : ℤ) ≤ ((4 : ℕ) : ℤ)) := by
  exact claim_C7_amended (fun _ => none) flatSeries {} flatCleaned
    { date := .vdate 10, sodium := some 2400 }
    [{ date := .vdate 10, sodium := some 2400 },
     { date := .vdate 10, sodium := some 2400 },
     { date := .vdate 10, sodium := some 2400 }]
    [((10 : ℤ), (2400 : ℚ)), (10, 2400), (10, 2400), (10, 2400)]
    flatSodiumReport rfl (by decide) (by decide) rfl flat_sodium_run

/-- The report with its flags field removed (for comparing two runs on
everything except flags). -/
def eraseFlags (r : Report) : Report := { r with flags := none }

/-- Like `detect_plateau_full`, but for a sodium block that raises: the
exception aborts the whole call. -/
lemma detect_plateau_sodiumError (parse : String → Option ℤ)
    (wi : List (Option WRecord)) (p : Params) (sod : Option (List SRecord))
    (cl0 : List (ℤ × ℚ)) (method : String) (ds : List ℤ) (sm : List ℚ)
    (m1 m2 : ℚ) (e : PyErr)
    (hc : cleanWeighins parse wi = .ok cl0) (hne : cl0 ≠ [])
    (hge : ¬ ((windowPoints (sortCleaned cl0) p.window_days).length : ℤ) <
      max 2 p.min_weighins)
    (hsm : chooseSmoothing
        ((windowPoints (sortCleaned cl0) p.window_days).map Prod.fst)
        ((windowPoints (sortCleaned cl0) p.window_days).map Prod.snd)
        p.ma_window_points p.use_ewma_if_sparse = some (method, ds, sm))
    (hm1 : pymedian (splitHalves (windowPoints (sortCleaned cl0) p.window_days)
        (startDate (sortCleaned cl0) p.window_days +
          Int.fdiv p.window_days 2)).1 = .ok m1)
    (hm2 : pymedian (splitHalves (windowPoints (sortCleaned cl0) p.window_days)
        (startDate (sortCleaned cl0) p.window_days +
          Int.fdiv p.window_days 2)).2 = .ok m2)
    (hfl : sodiumFlags parse sod (startDate (sortCleaned cl0) p.window_days)
        (endDate (sortCleaned cl0))
        (decide (|weeklySlope ds sm| < p.slope_flat_lbs_per_week) &&
          decide (|m2 - m1| < p.net_change_lbs)) p = .error e) :
    detect_plateau parse wi p sod = .error e := by
  unfold detect_plateau
  rw [hc]
  dsimp only
  rw [if_neg (fun h => hne (sortCleaned_eq_nil_iff.mp h)), if_neg hge, hsm]
  dsimp only
  rw [hm1]
  dsimp only
  rw [hm2]
  dsimp only
  rw [hfl]

/-- On a run with no sodium series, any returned report has an empty or
absent flags list. -/
lemma detect_flags_of_none (parse : String → Option ℤ)
    (wi : List (Option WRecord)) (p : Params) (r : Report)
    (h : detect_plateau parse wi p none = .ok r) :
    r.flags = some [] ∨ r.flags = none := by
  unfold detect_plateau at h
  cases hclean : cleanWeighins parse wi with
  | error e =>
    rw [hclean] at h
    exact Except.noConfusion h
  | ok cl0 =>
    rw [hclean] at h
    dsimp only at h
    split at h
    · injection h with h'
      subst h'
      exact Or.inr rfl
    · split at h
      · injection h with h'
        subst h'
        exact Or.inr rfl
      · split at h
        · exact Except.noConfusion h
        · split at h
          · exact Except.noConfusion h
          · split at h
            · exact Except.noConfusion h
            · dsimp only [sodiumFlags] at h
              injection h with h'
              subst h'
              exact Or.inl rfl

/-- Two-run noninterference core: when the supplied sodium series cleans
without error, the run with it and the run without it agree on everything
but the flags field (and on whether they abort at all). -/
lemma detect_eraseFlags_eq (parse : String → Option ℤ)
    (wi : List (Option WRecord)) (p : Params) (sl : List SRecord)
    (hok : sl ≠ [] → ∃ sc, cleanSodium parse sl = .ok sc) :
    Except.map eraseFlags (detect_plateau parse wi p (some sl)) =
      Except.map eraseFlags (detect_plateau parse wi p none) := by
  unfold detect_plateau
  cases hclean : cleanWeighins parse wi with
  | error e => rfl
  | ok cl0 =>
    dsimp only
    split
    · rfl
    · split
      · rfl
      · split
        · rfl
        · split
          · rfl
          · split
            · rfl
            · cases sl with
              | nil => rfl
              | cons srec srest =>
                obtain ⟨sc, hsc⟩ := hok (List.cons_ne_nil _ _)
                rw [sodiumFlags_of_clean parse srec srest sc _ _ _ p hsc]
                dsimp only [sodiumFlags]
                rfl

/-- Claim C6 counterexample: a supplied sodium series whose record has no
date keys makes the whole call raise `TypeError`, while the run without a
sodium series returns a report — so the non-flags fields are NOT identical
between the two runs for arbitrary supplied series. -/
theorem claim_C6_counterexample :
    detect_plateau (fun _ => none) flatSeries {} none = .ok flatReport ∧
    detect_plateau (fun _ => none) flatSeries {}
        (some [{ sodium := some 100 }]) = .error .typeError ∧
    Except.map eraseFlags (detect_plateau (fun _ => none) flatSeries {}
        (some [{ sodium := some 100 }])) ≠
      Except.map eraseFlags
        (detect_plateau (fun _ => none) flatSeries {} none) := by
  have herr : detect_plateau (fun _ => none) flatSeries {}
      (some [{ sodium := some 100 }]) = .error .typeError := by
    exact detect_plateau_sodiumError (fun _ => none) flatSeries {}
      (some [{ sodium := some 100 }]) flatCleaned "rolling_mean"
      [6, 7, 8, 9, 10, 11, 12, 13] [150, 150, 150, 150, 150, 150, 150, 150]
      150 150 .typeError
      rfl (by decide) (by decide)
      (by norm_num [chooseSmoothing, alignedRM, rolling_mean, flatCleaned,
        windowPoints, sortCleaned, startDate, endDate, List.range_succ,
        List.insertionSort, List.orderedInsert, List.filterMap_cons,
        Option.map_some, Option.map_none])
      (by norm_num [pymedian, splitHalves, windowPoints, sortCleaned,
        startDate, endDate, flatCleaned, List.range_succ,
        List.insertionSort, List.orderedInsert, Int.fdiv, List.cons_ne_nil])
      (by norm_num [pymedian, splitHalves, windowPoints, sortCleaned,
        startDate, endDate, flatCleaned, List.range_succ,
        List.insertionSort, List.orderedInsert, Int.fdiv, List.cons_ne_nil])
      rfl
  refine ⟨flat_run, herr, ?_⟩
  rw [herr, flat_run]
  exact fun hx => Except.noConfusion hx

/-- Claim C6 as amended: provided the supplied sodium series cleans without
a date exception, every field of the result other than flags is identical
with and without the sodium series (including which early exit or error is
taken); and with no sodium series the flags list of any returned report is
empty (or absent, on the early-exit reports). -/
theorem claim_C6_amended (parse : String → Option ℤ)
    (wi : List (Option WRecord)) (p : Params) (sl : List SRecord)
    (hok : sl ≠ [] → ∃ sc, cleanSodium parse sl = .ok sc) :
    Except.map eraseFlags (detect_plateau parse wi p (some sl)) =
      Except.map eraseFlags (detect_plateau parse wi p none) ∧
    (∀ r, detect_plateau parse wi p none = .ok r →
      r.flags = some [] ∨ r.flags = none) :=
  ⟨detect_eraseFlags_eq parse wi p sl hok,
   fun r hr => detect_flags_of_none parse wi p r hr⟩

/-- Witness for the amended C6 at the flat series and the concrete
same-day sodium series (which cleans without error). -/
theorem claim_C6_amended_witness :
    Except.map eraseFlags (detect_plateau (fun _ => none) flatSeries {}
        (some sodiumSameDay)) =
      Except.map eraseFlags
        (detect_plateau (fun _ => none) flatSeries {} none) ∧
    (∀ r, detect_plateau (fun _ => none) flatSeries {} none = .ok r →
      r.flags = some [] ∨ r.flags = none) :=
  claim_C6_amended (fun _ => none) flatSeries {} sodiumSameDay
    (fun _ => ⟨[((10 : ℤ), (2400 : ℚ)), (10, 2400), (10, 2400), (10, 2400)],
      rfl⟩)

/-- A series whose median net change is 0.496: below the 0.5 gate, but
displayed as 0.5 after rounding. -/
def c10aSeries : List (Option WRecord) :=
  (List.range 14).map fun i =>
    some { date := .vdate (i : ℤ),
           weight := some (if i ≤ 7 then (150 : ℚ) else 150 + 62/125) }

/-- A linear series of slope 0.2496/7 per day: weekly slope below the 0.25
gate, but displayed as 0.25 after rounding. -/
def c10bSeries : List (Option WRecord) :=
  (List.range 14).map fun i =>
    some { date := .vdate (i : ℤ),
           weight := some ((150 : ℚ) + 156/4375 * (i : ℚ)) }

lemma c10a_run :
    detect_plateau (fun _ => none) c10aSeries {} none = .ok
      { detected := false, window_days := some 14, window_start := some 0,
        window_end := some 13, weighins_count := some 14,
        smoothing := some "rolling_mean",
        slope_lbs_per_week := some (91/200),
        first_half_median := some 150, last_half_median := some (301/2),
        net_change_lbs := some (1/2), flat_trend := some false,
        small_change := some true, severity := none, flags := some [] } := by
  norm_num [detect_plateau, cleanWeighins, to_date, pyOr, DVal.truthy,
    c10aSeries, sortCleaned, startDate, endDate, windowPoints,
    chooseSmoothing, alignedRM, rolling_mean, ewma, weeklySlope,
    linear_regression_slope, splitHalves, pymedian, sodiumFlags, pyRound,
    roundHalfToEven, List.range_succ, List.insertionSort, List.orderedInsert,
    List.filterMap_cons, Option.map_some, Option.map_none, List.cons_ne_nil,
    Int.fdiv, abs_of_nonneg]

lemma c10b_run :
    detect_plateau (fun _ => none) c10bSeries {} none = .ok
      { detected := true, window_days := some 14, window_start := some 0,
        window_end := some 13, weighins_count := some 14,
        smoothing := some "rolling_mean",
        slope_lbs_per_week := some (1/4),
        first_half_median := some (3753/25),
        last_half_median := some (15037/100),
        net_change_lbs := some (1/4), flat_trend := some true,
        small_change := some true, severity := some "mild",
        flags := some [] } := by
  norm_num [detect_plateau, cleanWeighins, to_date, pyOr, DVal.truthy,
    c10bSeries, sortCleaned, startDate, endDate, windowPoints,
    chooseSmoothing, alignedRM, rolling_mean, ewma, weeklySlope,
    linear_regression_slope, splitHalves, pymedian, sodiumFlags, pyRound,
    roundHalfToEven, List.range_succ, List.insertionSort, List.orderedInsert,
    List.filterMap_cons, Option.map_some, Option.map_none, List.cons_ne_nil,
    Int.fdiv, abs_of_nonneg]

/-- Claim C10 (implicit): the gates are computed from the unrounded
values and rounding affects only the displayed fields — there are inputs
whose report shows `net_change_lbs` equal to the `net_change_lbs` threshold
(0.5) while `small_change` is true, and likewise a displayed
`slope_lbs_per_week` equal to the `slope_flat_lbs_per_week` threshold
(0.25) while `flat_trend` is true. -/
theorem claim_C10 :
    (∃ r, detect_plateau (fun _ => none) c10aSeries {} none = .ok r ∧
      r.net_change_lbs = some (({} : Params).net_change_lbs) ∧
      r.small_change = some true) ∧
    (∃ r, detect_plateau (fun _ => none) c10bSeries {} none = .ok r ∧
      r.slope_lbs_per_week = some (({} : Params).slope_flat_lbs_per_week) ∧
      r.flat_trend = some true) := by
  constructor
  · exact ⟨_, c10a_run, by norm_num, rfl⟩
  · exact ⟨_, c10b_run, by norm_num, rfl⟩

/-- A perfectly linear daily series `b + m * day` on days 0-13. -/
def linSeries (b m : ℚ) : List (Option WRecord) :=
  (List.range 14).map fun i =>
    some { date := .vdate (i : ℤ), weight := some (b + m * (i : ℚ)) }

/-- The cleaned form of `linSeries`. -/
def linCleaned (b m : ℚ) : List (ℤ × ℚ) :=
  (List.range 14).map fun i => ((i : ℤ), b + m * (i : ℚ))

lemma lin_windowPoints (b m : ℚ) :
    windowPoints (sortCleaned (linCleaned b m)) 14 = linCleaned b m := by
  norm_num [windowPoints, sortCleaned, startDate, endDate, linCleaned,
    List.range_succ, List.insertionSort, List.orderedInsert]

lemma lin_chooseSmoothing (b m : ℚ) :
    chooseSmoothing
      ((windowPoints (sortCleaned (linCleaned b m)) 14).map Prod.fst)
      ((windowPoints (sortCleaned (linCleaned b m)) 14).map Prod.snd)
      7 true =
    some ("rolling_mean", [6, 7, 8, 9, 10, 11, 12, 13],
      [b + m * 3, b + m * 4, b + m * 5, b + m * 6, b + m * 7, b + m * 8,
       b + m * 9, b + m * 10]) := by
  rw [lin_windowPoints]
  norm_num [chooseSmoothing, alignedRM, rolling_mean, linCleaned,
    List.range_succ, List.filterMap_cons,
    Option.map_some, Option.map_none]
  ring_nf
  simp

lemma lin_weeklySlope (b m : ℚ) :
    weeklySlope [6, 7, 8, 9, 10, 11, 12, 13]
      [b + m * 3, b + m * 4, b + m * 5, b + m * 6, b + m * 7, b + m * 8,
       b + m * 9, b + m * 10] = 7 * m := by
  norm_num [weeklySlope, linear_regression_slope]
  ring

/-- A linear series of slope 1 lb/day on days 0-5, spanning a 6-day
window; with `min_weighins = 2` it passes the gate, and with only 6 points
the 7-point rolling mean is empty, so the EWMA fallback is chosen. -/
def c5EwmaSeries : List (Option WRecord) :=
  (List.range 6).map fun i =>
    some { date := .vdate (i : ℤ), weight := some (150 + (i : ℚ)) }

lemma c5_ewma_run :
    detect_plateau (fun _ => none) c5EwmaSeries
      { window_days := 6, min_weighins := 2 } none = .ok
      { detected := false, window_days := some 6, window_start := some 0,
        window_end := some 5, weighins_count := some 6,
        smoothing := some "ewma",
        slope_lbs_per_week := some (3847/1000),
        first_half_median := some (303/2), last_half_median := some (309/2),
        net_change_lbs := some 3, flat_trend := some false,
        small_change := some false, severity := none,
        flags := some [] } := by
  norm_num [detect_plateau, cleanWeighins, to_date, pyOr, DVal.truthy,
    c5EwmaSeries, sortCleaned, startDate, endDate, windowPoints,
    chooseSmoothing, alignedRM, rolling_mean, ewma, weeklySlope,
    linear_regression_slope, splitHalves, pymedian, sodiumFlags, pyRound,
    roundHalfToEven, List.range_succ, List.insertionSort, List.orderedInsert,
    List.filterMap_cons, Option.map_some, Option.map_none, List.cons_ne_nil,
    Int.fdiv, abs_of_nonneg, List.scanl]

/-- Claim C5 counterexample: on the linear series of slope `m = 1` lb/day
(days 0-5, 6-day window, gate passed with `min_weighins = 2`) the chosen
smoothing method is `"ewma"`, and the computed weekly slope is
`19697/5120 ≈ 3.847`, not `7 m = 7` — the EWMA lag makes the slope claim
fail for the `"ewma"` method. -/
theorem claim_C5_counterexample :
    (∃ r, detect_plateau (fun _ => none) c5EwmaSeries
        { window_days := 6, min_weighins := 2 } none = .ok r ∧
      r.smoothing = some "ewma" ∧
      r.slope_lbs_per_week = some (3847/1000) ∧
      r.slope_lbs_per_week ≠ some (7 * 1)) ∧
    weeklySlope [0, 1, 2, 3, 4, 5]
      (ewma [150, 151, 152, 153, 154, 155] 7) = 19697/5120 ∧
    (19697/5120 : ℚ) ≠ 7 * 1 := by
  refine ⟨⟨_, c5_ewma_run, rfl, rfl, by norm_num⟩, ?_, by norm_num⟩
  norm_num [weeklySlope, linear_regression_slope, ewma, List.scanl]

/-- Claim C5 as amended: on a perfectly linear daily series spanning the
window, when the chosen smoothing method is `"rolling_mean"` the computed
weekly slope equals `7 m` exactly (so the reported field is `7 m` rounded
to 3 decimals); under the EWMA fallback the computed slope differs from
`7 m` in general (see the counterexample). -/
theorem claim_C5_amended (b m : ℚ) :
    ∃ r m1 m2,
      detect_plateau (fun _ => none) (linSeries b m) {} none = .ok r ∧
      chooseSmoothing
        ((windowPoints (sortCleaned (linCleaned b m)) 14).map Prod.fst)
        ((windowPoints (sortCleaned (linCleaned b m)) 14).map Prod.snd)
        7 true =
        some ("rolling_mean", [6, 7, 8, 9, 10, 11, 12, 13],
          [b + m * 3, b + m * 4, b + m * 5, b + m * 6, b + m * 7, b + m * 8,
           b + m * 9, b + m * 10]) ∧
      weeklySlope [6, 7, 8, 9, 10, 11, 12, 13]
        [b + m * 3, b + m * 4, b + m * 5, b + m * 6, b + m * 7, b + m * 8,
         b + m * 9, b + m * 10] = 7 * m ∧
      pymedian (splitHalves (windowPoints (sortCleaned (linCleaned b m)) 14)
        (startDate (sortCleaned (linCleaned b m)) 14 + Int.fdiv 14 2)).1 =
        .ok m1 ∧
      pymedian (splitHalves (windowPoints (sortCleaned (linCleaned b m)) 14)
        (startDate (sortCleaned (linCleaned b m)) 14 + Int.fdiv 14 2)).2 =
        .ok m2 ∧
      r.smoothing = some "rolling_mean" ∧
      r.slope_lbs_per_week = some (pyRound (7 * m) 3) := by
  have hlen : (windowPoints (sortCleaned (linCleaned b m)) 14).length = 14 := by
    rw [lin_windowPoints]
    rfl
  have hge : ¬ (((windowPoints (sortCleaned (linCleaned b m))
      (14 : ℤ)).length : ℤ) < max 2 10) := by
    rw [hlen]
    decide
  obtain ⟨h1ne, h2ne⟩ :=
    @splitHalves_ne_nil (windowPoints (sortCleaned (linCleaned b m)) 14)
      (by omega)
      (startDate (sortCleaned (linCleaned b m)) 14 + Int.fdiv 14 2)
  obtain ⟨m1, hm1⟩ := pymedian_ok h1ne
  obtain ⟨m2, hm2⟩ := pymedian_ok h2ne
  have hne : linCleaned b m ≠ [] := by
    simp [linCleaned, List.range_succ]
  have hfull := detect_plateau_full (fun _ => none) (linSeries b m) {} none
    (linCleaned b m) "rolling_mean" [6, 7, 8, 9, 10, 11, 12, 13]
    [b + m * 3, b + m * 4, b + m * 5, b + m * 6, b + m * 7, b + m * 8,
     b + m * 9, b + m * 10] m1 m2 []
    rfl hne hge (lin_chooseSmoothing b m) hm1 hm2 rfl
  refine ⟨_, m1, m2, hfull, lin_chooseSmoothing b m, lin_weeklySlope b m,
    hm1, hm2, rfl, ?_⟩
  show some (pyRound (weeklySlope [6, 7, 8, 9, 10, 11, 12, 13]
    [b + m * 3, b + m * 4, b + m * 5, b + m * 6, b + m * 7, b + m * 8,
     b + m * 9, b + m * 10]) 3) = some (pyRound (7 * m) 3)
  rw [lin_weeklySlope b m]

/-- When every windowed weight is within `ε` of `c`, both half medians
exist and their difference is at most `2ε` in magnitude. -/
lemma halves_medians_band (wp : List (ℤ × ℚ)) (mid : ℤ) (c eps : ℚ)
    (h2 : 2 ≤ wp.length)
    (hband : ∀ x ∈ wp.map Prod.snd, |x - c| ≤ eps) :
    ∃ m1 m2, pymedian (splitHalves wp mid).1 = .ok m1 ∧
      pymedian (splitHalves wp mid).2 = .ok m2 ∧
      |m2 - m1| ≤ 2 * eps := by
  obtain ⟨h1ne, h2ne⟩ := splitHalves_ne_nil h2 mid
  have hb1lo : ∀ x ∈ (splitHalves wp mid).1, c - eps ≤ x := fun x hx => by
    have h := abs_le.mp (hband x (splitHalves_fst_subset hx))
    linarith [h.1, h.2]
  have hb1hi : ∀ x ∈ (splitHalves wp mid).1, x ≤ c + eps := fun x hx => by
    have h := abs_le.mp (hband x (splitHalves_fst_subset hx))
    linarith [h.1, h.2]
  have hb2lo : ∀ x ∈ (splitHalves wp mid).2, c - eps ≤ x := fun x hx => by
    have h := abs_le.mp (hband x (splitHalves_snd_subset hx))
    linarith [h.1, h.2]
  have hb2hi : ∀ x ∈ (splitHalves wp mid).2, x ≤ c + eps := fun x hx => by
    have h := abs_le.mp (hband x (splitHalves_snd_subset hx))
    linarith [h.1, h.2]
  obtain ⟨m1, hm1, hm1lo, hm1hi⟩ := pymedian_bounds h1ne hb1lo hb1hi
  obtain ⟨m2, hm2, hm2lo, hm2hi⟩ := pymedian_bounds h2ne hb2lo hb2hi
  refine ⟨m1, m2, hm1, hm2, abs_le.mpr ⟨by linarith, by linarith⟩⟩

/-- Daily weigh-ins: one sample of weight `w i` on day `i`, `i < n`. -/
def dailySeries (n : ℕ) (w : ℕ → ℚ) : List (Option WRecord) :=
  (List.range n).map fun (i : ℕ) =>
    some { date := .vdate (i : ℤ), weight := some (w i) }

/-- The cleaned form of `dailySeries`. -/
def dailyCleaned (n : ℕ) (w : ℕ → ℚ) : List (ℤ × ℚ) :=
  (List.range n).map fun (i : ℕ) => ((i : ℤ), w i)

/-- Ten samples within the window and within 0.1 of 150, but clustered on
two days: eight on day 0 (seven at 149.9, one at 150.1) and two on day 1
(both at 150.1). -/
def c4Series : List (Option WRecord) :=
  [some { date := .vdate 0, weight := some (1499/10) },
   some { date := .vdate 0, weight := some (1499/10) },
   some { date := .vdate 0, weight := some (1499/10) },
   some { date := .vdate 0, weight := some (1499/10) },
   some { date := .vdate 0, weight := some (1499/10) },
   some { date := .vdate 0, weight := some (1499/10) },
   some { date := .vdate 0, weight := some (1499/10) },
   some { date := .vdate 0, weight := some (1501/10) },
   some { date := .vdate 1, weight := some (1501/10) },
   some { date := .vdate 1, weight := some (1501/10) }]

/-- The cleaned form of `c4Series`. -/
def c4Cleaned : List (ℤ × ℚ) :=
  [(0, 1499/10), (0, 1499/10), (0, 1499/10), (0, 1499/10), (0, 1499/10),
   (0, 1499/10), (0, 1499/10), (0, 1501/10), (1, 1501/10), (1, 1501/10)]

lemma c4_run :
    detect_plateau (fun _ => none) c4Series {} none = .ok
      { detected := false, window_days := some 14,
        window_start := some (-12), window_end := some 1,
        weighins_count := some 10, smoothing := some "rolling_mean",
        slope_lbs_per_week := some (2/5),
        first_half_median := some (1499/10),
        last_half_median := some (1501/10),
        net_change_lbs := some (1/5), flat_trend := some false,
        small_change := some true, severity := none,
        flags := some [] } := by
  norm_num [detect_plateau, cleanWeighins, to_date, pyOr, DVal.truthy,
    c4Series, sortCleaned, startDate, endDate, windowPoints,
    chooseSmoothing, alignedRM, rolling_mean, ewma, weeklySlope,
    linear_regression_slope, splitHalves, pymedian, sodiumFlags, pyRound,
    roundHalfToEven, List.range_succ, List.insertionSort, List.orderedInsert,
    List.filterMap_cons, Option.map_some, Option.map_none, List.cons_ne_nil,
    Int.fdiv, abs_of_nonneg]

/-- Claim C4 counterexample: all ten weights of `c4Series` are within 0.1
of 150 and all ten samples lie in the window, yet `detected` is false —
the same-day clustering drives the weekly regression slope to 0.4, past
the 0.25 gate, so the claim fails as universally quantified over sample
dates. -/
theorem claim_C4_counterexample :
    cleanWeighins (fun _ => none) c4Series = .ok c4Cleaned ∧
    c4Cleaned.map Prod.snd =
      [1499/10, 1499/10, 1499/10, 1499/10, 1499/10, 1499/10, 1499/10,
       1501/10, 1501/10, 1501/10] ∧
    |(1499/10 : ℚ) - 150| ≤ 1/10 ∧ |(1501/10 : ℚ) - 150| ≤ 1/10 ∧
    (windowPoints (sortCleaned c4Cleaned) 14).length = 10 ∧
    (∃ r, detect_plateau (fun _ => none) c4Series {} none = .ok r ∧
      r.detected = false ∧ r.flat_trend = some false ∧
      r.slope_lbs_per_week = some (2/5)) := by
  refine ⟨rfl, rfl, by norm_num [abs_le], by norm_num [abs_le],
    by decide, ⟨_, c4_run, rfl, rfl, rfl⟩⟩

set_option maxHeartbeats 2000000 in
/-- Claim C4 as amended: for daily consecutive samples (one per day, so
10-14 of them lie in the default 14-day window) whose weights all lie
within 0.1 of a constant `c`, detection fires and severity is `"strong"`
or `"mild"`.  (The original claim also quantified over arbitrary same-day
clusterings, where it fails: see the counterexample above.) -/
theorem claim_C4_amended (n : ℕ) (w : ℕ → ℚ) (c : ℚ)
    (h10 : 10 ≤ n) (h14 : n ≤ 14)
    (hband : ∀ i, i < n → |w i - c| ≤ 1/10) :
    ∃ r, detect_plateau (fun _ => none) (dailySeries n w) {} none = .ok r ∧
      r.detected = true ∧
      (r.severity = some "strong" ∨ r.severity = some "mild") := by
  interval_cases n
  · have hwp : windowPoints (sortCleaned (dailyCleaned 10 w)) 14 =
        dailyCleaned 10 w := by
      norm_num [windowPoints, sortCleaned, startDate, endDate, dailyCleaned,
        List.range_succ, List.insertionSort, List.orderedInsert]
    have hlen : (windowPoints (sortCleaned (dailyCleaned 10 w)) 14).length =
        10 := by
      rw [hwp]; rfl
    have hband2 : ∀ x ∈ (windowPoints (sortCleaned
        (dailyCleaned 10 w)) 14).map Prod.snd, |x - c| ≤ 1/10 := by
      rw [hwp]
      intro x hx
      simp only [dailyCleaned, List.map_map, List.mem_map,
        List.mem_range] at hx
      obtain ⟨i, hi, rfl⟩ := hx
      exact hband i hi
    obtain ⟨m1, m2, hm1, hm2, hnet⟩ := halves_medians_band
      (windowPoints (sortCleaned (dailyCleaned 10 w)) 14)
      (startDate (sortCleaned (dailyCleaned 10 w)) 14 + Int.fdiv 14 2)
      c (1/10) (by rw [hlen]; omega) hband2
    have hcs : chooseSmoothing
        ((windowPoints (sortCleaned (dailyCleaned 10 w)) 14).map Prod.fst)
        ((windowPoints (sortCleaned (dailyCleaned 10 w)) 14).map Prod.snd)
        7 true =
        some ("rolling_mean", [6, 7, 8, 9],
          [(w 0 + w 1 + w 2 + w 3 + w 4 + w 5 + w 6) / 7,
       (w 1 + w 2 + w 3 + w 4 + w 5 + w 6 + w 7) / 7,
       (w 2 + w 3 + w 4 + w 5 + w 6 + w 7 + w 8) / 7,
       (w 3 + w 4 + w 5 + w 6 + w 7 + w 8 + w 9) / 7]) := by
      rw [hwp]
      norm_num [chooseSmoothing, alignedRM, rolling_mean, dailyCleaned,
        List.range_succ, List.filterMap_cons, Option.map_some,
        Option.map_none]
      ring_nf
      simp
    have hflat : |weeklySlope [6, 7, 8, 9]
        [(w 0 + w 1 + w 2 + w 3 + w 4 + w 5 + w 6) / 7,
     (w 1 + w 2 + w 3 + w 4 + w 5 + w 6 + w 7) / 7,
     (w 2 + w 3 + w 4 + w 5 + w 6 + w 7 + w 8) / 7,
     (w 3 + w 4 + w 5 + w 6 + w 7 + w 8 + w 9) / 7]| < 1/4 := by
      have hb : ∀ i, i < 10 → -(1/10) ≤ w i - c ∧ w i - c ≤ 1/10 :=
        fun i hi => abs_le.mp (hband i hi)
      have h0 := hb 0 (by omega)
      have h1 := hb 1 (by omega)
      have h2 := hb 2 (by omega)
      have h3 := hb 3 (by omega)
      have h4 := hb 4 (by omega)
      have h5 := hb 5 (by omega)
      have h6 := hb 6 (by omega)
      have h7 := hb 7 (by omega)
      have h8 := hb 8 (by omega)
      have h9 := hb 9 (by omega)
      rw [abs_lt]
      constructor
      · norm_num [weeklySlope, linear_regression_slope]
        linarith [h0.1, h0.2, h1.1, h1.2, h2.1, h2.2, h3.1, h3.2, h4.1, h4.2, h5.1, h5.2, h6.1, h6.2, h7.1, h7.2, h8.1, h8.2, h9.1, h9.2]
      · norm_num [weeklySlope, linear_regression_slope]
        linarith [h0.1, h0.2, h1.1, h1.2, h2.1, h2.2, h3.1, h3.2, h4.1, h4.2, h5.1, h5.2, h6.1, h6.2, h7.1, h7.2, h8.1, h8.2, h9.1, h9.2]
    have hsmall : |m2 - m1| < 1/2 := lt_of_le_of_lt hnet (by norm_num)
    have hne : dailyCleaned 10 w ≠ [] := by
      simp [dailyCleaned, List.range_succ]
    have hge : ¬ (((windowPoints (sortCleaned (dailyCleaned 10 w))
        (14 : ℤ)).length : ℤ) < max 2 10) := by
      rw [hlen]; decide
    have hfull := detect_plateau_full (fun _ => none) (dailySeries 10 w) {}
      none (dailyCleaned 10 w) "rolling_mean" [6, 7, 8, 9]
      [(w 0 + w 1 + w 2 + w 3 + w 4 + w 5 + w 6) / 7,
     (w 1 + w 2 + w 3 + w 4 + w 5 + w 6 + w 7) / 7,
     (w 2 + w 3 + w 4 + w 5 + w 6 + w 7 + w 8) / 7,
     (w 3 + w 4 + w 5 + w 6 + w 7 + w 8 + w 9) / 7] m1 m2 []
      rfl hne hge hcs hm1 hm2 rfl
    refine ⟨_, hfull, ?_, ?_⟩
    · dsimp only
      rw [Bool.and_eq_true]
      simp only [decide_eq_true_eq]
      exact ⟨hflat, hsmall⟩
    · dsimp only
      rw [if_pos (show ((decide _ && decide _) = true) from by
        rw [Bool.and_eq_true]
        simp only [decide_eq_true_eq]
        exact ⟨hflat, hsmall⟩)]
      split_ifs with hstrong
      · exact Or.inl rfl
      · exact Or.inr rfl
  · have hwp : windowPoints (sortCleaned (dailyCleaned 11 w)) 14 =
        dailyCleaned 11 w := by
      norm_num [windowPoints, sortCleaned, startDate, endDate, dailyCleaned,
        List.range_succ, List.insertionSort, List.orderedInsert]
    have hlen : (windowPoints (sortCleaned (dailyCleaned 11 w)) 14).length =
        11 := by
      rw [hwp]; rfl
    have hband2 : ∀ x ∈ (windowPoints (sortCleaned
        (dailyCleaned 11 w)) 14).map Prod.snd, |x - c| ≤ 1/10 := by
      rw [hwp]
      intro x hx
      simp only [dailyCleaned, List.map_map, List.mem_map,
        List.mem_range] at hx
      obtain ⟨i, hi, rfl⟩ := hx
      exact hband i hi
    obtain ⟨m1, m2, hm1, hm2, hnet⟩ := halves_medians_band
      (windowPoints (sortCleaned (dailyCleaned 11 w)) 14)
      (startDate (sortCleaned (dailyCleaned 11 w)) 14 + Int.fdiv 14 2)
      c (1/10) (by rw [hlen]; omega) hband2
    have hcs : chooseSmoothing
        ((windowPoints (sortCleaned (dailyCleaned 11 w)) 14).map Prod.fst)
        ((windowPoints (sortCleaned (dailyCleaned 11 w)) 14).map Prod.snd)
        7 true =
        some ("rolling_mean", [6, 7, 8, 9, 10],
          [(w 0 + w 1 + w 2 + w 3 + w 4 + w 5 + w 6) / 7,
       (w 1 + w 2 + w 3 + w 4 + w 5 + w 6 + w 7) / 7,
       (w 2 + w 3 + w 4 + w 5 + w 6 + w 7 + w 8) / 7,
       (w 3 + w 4 + w 5 + w 6 + w 7 + w 8 + w 9) / 7,
       (w 4 + w 5 + w 6 + w 7 + w 8 + w 9 + w 10) / 7]) := by
      rw [hwp]
      norm_num [chooseSmoothing, alignedRM, rolling_mean, dailyCleaned,
        List.range_succ, List.filterMap_cons, Option.map_some,
        Option.map_none]
      ring_nf
      simp
    have hflat : |weeklySlope [6, 7, 8, 9, 10]
        [(w 0 + w 1 + w 2 + w 3 + w 4 + w 5 + w 6) / 7,
     (w 1 + w 2 + w 3 + w 4 + w 5 + w 6 + w 7) / 7,
     (w 2 + w 3 + w 4 + w 5 + w 6 + w 7 + w 8) / 7,
     (w 3 + w 4 + w 5 + w 6 + w 7 + w 8 + w 9) / 7,
     (w 4 + w 5 + w 6 + w 7 + w 8 + w 9 + w 10) / 7]| < 1/4 := by
      have hb : ∀ i, i < 11 → -(1/10) ≤ w i - c ∧ w i - c ≤ 1/10 :=
        fun i hi => abs_le.mp (hband i hi)
      have h0 := hb 0 (by omega)
      have h1 := hb 1 (by omega)
      have h2 := hb 2 (by omega)
      have h3 := hb 3 (by omega)
      have h4 := hb 4 (by omega)
      have h5 := hb 5 (by omega)
      have h6 := hb 6 (by omega)
      have h7 := hb 7 (by omega)
      have h8 := hb 8 (by omega)
      have h9 := hb 9 (by omega)
      have h10 := hb 10 (by omega)
      rw [abs_lt]
      constructor
      · norm_num [weeklySlope, linear_regression_slope]
        linarith [h0.1, h0.2, h1.1, h1.2, h2.1, h2.2, h3.1, h3.2, h4.1, h4.2, h5.1, h5.2, h6.1, h6.2, h7.1, h7.2, h8.1, h8.2, h9.1, h9.2, h10.1, h10.2]
      · norm_num [weeklySlope, linear_regression_slope]
        linarith [h0.1, h0.2, h1.1, h1.2, h2.1, h2.2, h3.1, h3.2, h4.1, h4.2, h5.1, h5.2, h6.1, h6.2, h7.1, h7.2, h8.1, h8.2, h9.1, h9.2, h10.1, h10.2]
    have hsmall : |m2 - m1| < 1/2 := lt_of_le_of_lt hnet (by norm_num)
    have hne : dailyCleaned 11 w ≠ [] := by
      simp [dailyCleaned, List.range_succ]
    have hge : ¬ (((windowPoints (sortCleaned (dailyCleaned 11 w))
        (14 : ℤ)).length : ℤ) < max 2 10) := by
      rw [hlen]; decide
    have hfull := detect_plateau_full (fun _ => none) (dailySeries 11 w) {}
      none (dailyCleaned 11 w) "rolling_mean" [6, 7, 8, 9, 10]
      [(w 0 + w 1 + w 2 + w 3 + w 4 + w 5 + w 6) / 7,
     (w 1 + w 2 + w 3 + w 4 + w 5 + w 6 + w 7) / 7,
     (w 2 + w 3 + w 4 + w 5 + w 6 + w 7 + w 8) / 7,
     (w 3 + w 4 + w 5 + w 6 + w 7 + w 8 + w 9) / 7,
     (w 4 + w 5 + w 6 + w 7 + w 8 + w 9 + w 10) / 7] m1 m2 []
      rfl hne hge hcs hm1 hm2 rfl
    refine ⟨_, hfull, ?_, ?_⟩
    · dsimp only
      rw [Bool.and_eq_true]
      simp only [decide_eq_true_eq]
      exact ⟨hflat, hsmall⟩
    · dsimp only
      rw [if_pos (show ((decide _ && decide _) = true) from by
        rw [Bool.and_eq_true]
        simp only [decide_eq_true_eq]
        exact ⟨hflat, hsmall⟩)]
      split_ifs with hstrong
      · exact Or.inl rfl
      · exact Or.inr rfl
  · have hwp : windowPoints (sortCleaned (dailyCleaned 12 w)) 14 =
        dailyCleaned 12 w := by
      norm_num [windowPoints, sortCleaned, startDate, endDate, dailyCleaned,
        List.range_succ, List.insertionSort, List.orderedInsert]
    have hlen : (windowPoints (sortCleaned (dailyCleaned 12 w)) 14).length =
        12 := by
      rw [hwp]; rfl
    have hband2 : ∀ x ∈ (windowPoints (sortCleaned
        (dailyCleaned 12 w)) 14).map Prod.snd, |x - c| ≤ 1/10 := by
      rw [hwp]
      intro x hx
      simp only [dailyCleaned, List.map_map, List.mem_map,
        List.mem_range] at hx
      obtain ⟨i, hi, rfl⟩ := hx
      exact hband i hi
    obtain ⟨m1, m2, hm1, hm2, hnet⟩ := halves_medians_band
      (windowPoints (sortCleaned (dailyCleaned 12 w)) 14)
      (startDate (sortCleaned (dailyCleaned 12 w)) 14 + Int.fdiv 14 2)
      c (1/10) (by rw [hlen]; omega) hband2
    have hcs : chooseSmoothing
        ((windowPoints (sortCleaned (dailyCleaned 12 w)) 14).map Prod.fst)
        ((windowPoints (sortCleaned (dailyCleaned 12 w)) 14).map Prod.snd)
        7 true =
        some ("rolling_mean", [6, 7, 8, 9, 10, 11],
          [(w 0 + w 1 + w 2 + w 3 + w 4 + w 5 + w 6) / 7,
       (w 1 + w 2 + w 3 + w 4 + w 5 + w 6 + w 7) / 7,
       (w 2 + w 3 + w 4 + w 5 + w 6 + w 7 + w 8) / 7,
       (w 3 + w 4 + w 5 + w 6 + w 7 + w 8 + w 9) / 7,
       (w 4 + w 5 + w 6 + w 7 + w 8 + w 9 + w 10) / 7,
       (w 5 + w 6 + w 7 + w 8 + w 9 + w 10 + w 11) / 7]) := by
      rw [hwp]
      norm_num [chooseSmoothing, alignedRM, rolling_mean, dailyCleaned,
        List.range_succ, List.filterMap_cons, Option.map_some,
        Option.map_none]
      ring_nf
      simp
    have hflat : |weeklySlope [6, 7, 8, 9, 10, 11]
        [(w 0 + w 1 + w 2 + w 3 + w 4 + w 5 + w 6) / 7,
     (w 1 + w 2 + w 3 + w 4 + w 5 + w 6 + w 7) / 7,
     (w 2 + w 3 + w 4 + w 5 + w 6 + w 7 + w 8) / 7,
     (w 3 + w 4 + w 5 + w 6 + w 7 + w 8 + w 9) / 7,
     (w 4 + w 5 + w 6 + w 7 + w 8 + w 9 + w 10) / 7,
     (w 5 + w 6 + w 7 + w 8 + w 9 + w 10 + w 11) / 7]| < 1/4 := by
      have hb : ∀ i, i < 12 → -(1/10) ≤ w i - c ∧ w i - c ≤ 1/10 :=
        fun i hi => abs_le.mp (hband i hi)
      have h0 := hb 0 (by omega)
      have h1 := hb 1 (by omega)
      have h2 := hb 2 (by omega)
      have h3 := hb 3 (by omega)
      have h4 := hb 4 (by omega)
      have h5 := hb 5 (by omega)
      have h6 := hb 6 (by omega)
      have h7 := hb 7 (by omega)
      have h8 := hb 8 (by omega)
      have h9 := hb 9 (by omega)
      have h10 := hb 10 (by omega)
      have h11 := hb 11 (by omega)
      rw [abs_lt]
      constructor
      · norm_num [weeklySlope, linear_regression_slope]
        linarith [h0.1, h0.2, h1.1, h1.2, h2.1, h2.2, h3.1, h3.2, h4.1, h4.2, h5.1, h5.2, h6.1, h6.2, h7.1, h7.2, h8.1, h8.2, h9.1, h9.2, h10.1, h10.2, h11.1, h11.2]
      · norm_num [weeklySlope, linear_regression_slope]
        linarith [h0.1, h0.2, h1.1, h1.2, h2.1, h2.2, h3.1, h3.2, h4.1, h4.2, h5.1, h5.2, h6.1, h6.2, h7.1, h7.2, h8.1, h8.2, h9.1, h9.2, h10.1, h10.2, h11.1, h11.2]
    have hsmall : |m2 - m1| < 1/2 := lt_of_le_of_lt hnet (by norm_num)
    have hne : dailyCleaned 12 w ≠ [] := by
      simp [dailyCleaned, List.range_succ]
    have hge : ¬ (((windowPoints (sortCleaned (dailyCleaned 12 w))
        (14 : ℤ)).length : ℤ) < max 2 10) := by
      rw [hlen]; decide
    have hfull := detect_plateau_full (fun _ => none) (dailySeries 12 w) {}
      none (dailyCleaned 12 w) "rolling_mean" [6, 7, 8, 9, 10, 11]
      [(w 0 + w 1 + w 2 + w 3 + w 4 + w 5 + w 6) / 7,
     (w 1 + w 2 + w 3 + w 4 + w 5 + w 6 + w 7) / 7,
     (w 2 + w 3 + w 4 + w 5 + w 6 + w 7 + w 8) / 7,
     (w 3 + w 4 + w 5 + w 6 + w 7 + w 8 + w 9) / 7,
     (w 4 + w 5 + w 6 + w 7 + w 8 + w 9 + w 10) / 7,
     (w 5 + w 6 + w 7 + w 8 + w 9 + w 10 + w 11) / 7] m1 m2 []
      rfl hne hge hcs hm1 hm2 rfl
    refine ⟨_, hfull, ?_, ?_⟩
    · dsimp only
      rw [Bool.and_eq_true]
      simp only [decide_eq_true_eq]
      exact ⟨hflat, hsmall⟩
    · dsimp only
      rw [if_pos (show ((decide _ && decide _) = true) from by
        rw [Bool.and_eq_true]
        simp only [decide_eq_true_eq]
        exact ⟨hflat, hsmall⟩)]
      split_ifs with hstrong
      · exact Or.inl rfl
      · exact Or.inr rfl
  · have hwp : windowPoints (sortCleaned (dailyCleaned 13 w)) 14 =
        dailyCleaned 13 w := by
      norm_num [windowPoints, sortCleaned, startDate, endDate, dailyCleaned,
        List.range_succ, List.insertionSort, List.orderedInsert]
    have hlen : (windowPoints (sortCleaned (dailyCleaned 13 w)) 14).length =
        13 := by
      rw [hwp]; rfl
    have hband2 : ∀ x ∈ (windowPoints (sortCleaned
        (dailyCleaned 13 w)) 14).map Prod.snd, |x - c| ≤ 1/10 := by
      rw [hwp]
      intro x hx
      simp only [dailyCleaned, List.map_map, List.mem_map,
        List.mem_range] at hx
      obtain ⟨i, hi, rfl⟩ := hx
      exact hband i hi
    obtain ⟨m1, m2, hm1, hm2, hnet⟩ := halves_medians_band
      (windowPoints (sortCleaned (dailyCleaned 13 w)) 14)
      (startDate (sortCleaned (dailyCleaned 13 w)) 14 + Int.fdiv 14 2)
      c (1/10) (by rw [hlen]; omega) hband2
    have hcs : chooseSmoothing
        ((windowPoints (sortCleaned (dailyCleaned 13 w)) 14).map Prod.fst)
        ((windowPoints (sortCleaned (dailyCleaned 13 w)) 14).map Prod.snd)
        7 true =
        some ("rolling_mean", [6, 7, 8, 9, 10, 11, 12],
          [(w 0 + w 1 + w 2 + w 3 + w 4 + w 5 + w 6) / 7,
       (w 1 + w 2 + w 3 + w 4 + w 5 + w 6 + w 7) / 7,
       (w 2 + w 3 + w 4 + w 5 + w 6 + w 7 + w 8) / 7,
       (w 3 + w 4 + w 5 + w 6 + w 7 + w 8 + w 9) / 7,
       (w 4 + w 5 + w 6 + w 7 + w 8 + w 9 + w 10) / 7,
       (w 5 + w 6 + w 7 + w 8 + w 9 + w 10 + w 11) / 7,
       (w 6 + w 7 + w 8 + w 9 + w 10 + w 11 + w 12) / 7]) := by
      rw [hwp]
      norm_num [chooseSmoothing, alignedRM, rolling_mean, dailyCleaned,
        List.range_succ, List.filterMap_cons, Option.map_some,
        Option.map_none]
      ring_nf
      simp
    have hflat : |weeklySlope [6, 7, 8, 9, 10, 11, 12]
        [(w 0 + w 1 + w 2 + w 3 + w 4 + w 5 + w 6) / 7,
     (w 1 + w 2 + w 3 + w 4 + w 5 + w 6 + w 7) / 7,
     (w 2 + w 3 + w 4 + w 5 + w 6 + w 7 + w 8) / 7,
     (w 3 + w 4 + w 5 + w 6 + w 7 + w 8 + w 9) / 7,
     (w 4 + w 5 + w 6 + w 7 + w 8 + w 9 + w 10) / 7,
     (w 5 + w 6 + w 7 + w 8 + w 9 + w 10 + w 11) / 7,
     (w 6 + w 7 + w 8 + w 9 + w 10 + w 11 + w 12) / 7]| < 1/4 := by
      have hb : ∀ i, i < 13 → -(1/10) ≤ w i - c ∧ w i - c ≤ 1/10 :=
        fun i hi => abs_le.mp (hband i hi)
      have h0 := hb 0 (by omega)
      have h1 := hb 1 (by omega)
      have h2 := hb 2 (by omega)
      have h3 := hb 3 (by omega)
      have h4 := hb 4 (by omega)
      have h5 := hb 5 (by omega)
      have h6 := hb 6 (by omega)
      have h7 := hb 7 (by omega)
      have h8 := hb 8 (by omega)
      have h9 := hb 9 (by omega)
      have h10 := hb 10 (by omega)
      have h11 := hb 11 (by omega)
      have h12 := hb 12 (by omega)
      rw [abs_lt]
      constructor
      · norm_num [weeklySlope, linear_regression_slope]
        linarith [h0.1, h0.2, h1.1, h1.2, h2.1, h2.2, h3.1, h3.2, h4.1, h4.2, h5.1, h5.2, h6.1, h6.2, h7.1, h7.2, h8.1, h8.2, h9.1, h9.2, h10.1, h10.2, h11.1, h11.2, h12.1, h12.2]
      · norm_num [weeklySlope, linear_regression_slope]
        linarith [h0.1, h0.2, h1.1, h1.2, h2.1, h2.2, h3.1, h3.2, h4.1, h4.2, h5.1, h5.2, h6.1, h6.2, h7.1, h7.2, h8.1, h8.2, h9.1, h9.2, h10.1, h10.2, h11.1, h11.2, h12.1, h12.2]
    have hsmall : |m2 - m1| < 1/2 := lt_of_le_of_lt hnet (by norm_num)
    have hne : dailyCleaned 13 w ≠ [] := by
      simp [dailyCleaned, List.range_succ]
    have hge : ¬ (((windowPoints (sortCleaned (dailyCleaned 13 w))
        (14 : ℤ)).length : ℤ) < max 2 10) := by
      rw [hlen]; decide
    have hfull := detect_plateau_full (fun _ => none) (dailySeries 13 w) {}
      none (dailyCleaned 13 w) "rolling_mean" [6, 7, 8, 9, 10, 11, 12]
      [(w 0 + w 1 + w 2 + w 3 + w 4 + w 5 + w 6) / 7,
     (w 1 + w 2 + w 3 + w 4 + w 5 + w 6 + w 7) / 7,
     (w 2 + w 3 + w 4 + w 5 + w 6 + w 7 + w 8) / 7,
     (w 3 + w 4 + w 5 + w 6 + w 7 + w 8 + w 9) / 7,
     (w 4 + w 5 + w 6 + w 7 + w 8 + w 9 + w 10) / 7,
     (w 5 + w 6 + w 7 + w 8 + w 9 + w 10 + w 11) / 7,
     (w 6 + w 7 + w 8 + w 9 + w 10 + w 11 + w 12) / 7] m1 m2 []
      rfl hne hge hcs hm1 hm2 rfl
    refine ⟨_, hfull, ?_, ?_⟩
    · dsimp only
      rw [Bool.and_eq_true]
      simp only [decide_eq_true_eq]
      exact ⟨hflat, hsmall⟩
    · dsimp only
      rw [if_pos (show ((decide _ && decide _) = true) from by
        rw [Bool.and_eq_true]
        simp only [decide_eq_true_eq]
        exact ⟨hflat, hsmall⟩)]
      split_ifs with hstrong
      · exact Or.inl rfl
      · exact Or.inr rfl
  · have hwp : windowPoints (sortCleaned (dailyCleaned 14 w)) 14 =
        dailyCleaned 14 w := by
      norm_num [windowPoints, sortCleaned, startDate, endDate, dailyCleaned,
        List.range_succ, List.insertionSort, List.orderedInsert]
    have hlen : (windowPoints (sortCleaned (dailyCleaned 14 w)) 14).length =
        14 := by
      rw [hwp]; rfl
    have hband2 : ∀ x ∈ (windowPoints (sortCleaned
        (dailyCleaned 14 w)) 14).map Prod.snd, |x - c| ≤ 1/10 := by
      rw [hwp]
      intro x hx
      simp only [dailyCleaned, List.map_map, List.mem_map,
        List.mem_range] at hx
      obtain ⟨i, hi, rfl⟩ := hx
      exact hband i hi
    obtain ⟨m1, m2, hm1, hm2, hnet⟩ := halves_medians_band
      (windowPoints (sortCleaned (dailyCleaned 14 w)) 14)
      (startDate (sortCleaned (dailyCleaned 14 w)) 14 + Int.fdiv 14 2)
      c (1/10) (by rw [hlen]; omega) hband2
    have hcs : chooseSmoothing
        ((windowPoints (sortCleaned (dailyCleaned 14 w)) 14).map Prod.fst)
        ((windowPoints (sortCleaned (dailyCleaned 14 w)) 14).map Prod.snd)
        7 true =
        some ("rolling_mean", [6, 7, 8, 9, 10, 11, 12, 13],
          [(w 0 + w 1 + w 2 + w 3 + w 4 + w 5 + w 6) / 7,
       (w 1 + w 2 + w 3 + w 4 + w 5 + w 6 + w 7) / 7,
       (w 2 + w 3 + w 4 + w 5 + w 6 + w 7 + w 8) / 7,
       (w 3 + w 4 + w 5 + w 6 + w 7 + w 8 + w 9) / 7,
       (w 4 + w 5 + w 6 + w 7 + w 8 + w 9 + w 10) / 7,
       (w 5 + w 6 + w 7 + w 8 + w 9 + w 10 + w 11) / 7,
       (w 6 + w 7 + w 8 + w 9 + w 10 + w 11 + w 12) / 7,
       (w 7 + w 8 + w 9 + w 10 + w 11 + w 12 + w 13) / 7]) := by
      rw [hwp]
      norm_num [chooseSmoothing, alignedRM, rolling_mean, dailyCleaned,
        List.range_succ, List.filterMap_cons, Option.map_some,
        Option.map_none]
      ring_nf
      simp
    have hflat : |weeklySlope [6, 7, 8, 9, 10, 11, 12, 13]
        [(w 0 + w 1 + w 2 + w 3 + w 4 + w 5 + w 6) / 7,
     (w 1 + w 2 + w 3 + w 4 + w 5 + w 6 + w 7) / 7,
     (w 2 + w 3 + w 4 + w 5 + w 6 + w 7 + w 8) / 7,
     (w 3 + w 4 + w 5 + w 6 + w 7 + w 8 + w 9) / 7,
     (w 4 + w 5 + w 6 + w 7 + w 8 + w 9 + w 10) / 7,
     (w 5 + w 6 + w 7 + w 8 + w 9 + w 10 + w 11) / 7,
     (w 6 + w 7 + w 8 + w 9 + w 10 + w 11 + w 12) / 7,
     (w 7 + w 8 + w 9 + w 10 + w 11 + w 12 + w 13) / 7]| < 1/4 := by
      have hb : ∀ i, i < 14 → -(1/10) ≤ w i - c ∧ w i - c ≤ 1/10 :=
        fun i hi => abs_le.mp (hband i hi)
      have h0 := hb 0 (by omega)
      have h1 := hb 1 (by omega)
      have h2 := hb 2 (by omega)
      have h3 := hb 3 (by omega)
      have h4 := hb 4 (by omega)
      have h5 := hb 5 (by omega)
      have h6 := hb 6 (by omega)
      have h7 := hb 7 (by omega)
      have h8 := hb 8 (by omega)
      have h9 := hb 9 (by omega)
      have h10 := hb 10 (by omega)
      have h11 := hb 11 (by omega)
      have h12 := hb 12 (by omega)
      have h13 := hb 13 (by omega)
      rw [abs_lt]
      constructor
      · norm_num [weeklySlope, linear_regression_slope]
        linarith [h0.1, h0.2, h1.1, h1.2, h2.1, h2.2, h3.1, h3.2, h4.1, h4.2, h5.1, h5.2, h6.1, h6.2, h7.1, h7.2, h8.1, h8.2, h9.1, h9.2, h10.1, h10.2, h11.1, h11.2, h12.1, h12.2, h13.1, h13.2]
      · norm_num [weeklySlope, linear_regression_slope]
        linarith [h0.1, h0.2, h1.1, h1.2, h2.1, h2.2, h3.1, h3.2, h4.1, h4.2, h5.1, h5.2, h6.1, h6.2, h7.1, h7.2, h8.1, h8.2, h9.1, h9.2, h10.1, h10.2, h11.1, h11.2, h12.1, h12.2, h13.1, h13.2]
    have hsmall : |m2 - m1| < 1/2 := lt_of_le_of_lt hnet (by norm_num)
    have hne : dailyCleaned 14 w ≠ [] := by
      simp [dailyCleaned, List.range_succ]
    have hge : ¬ (((windowPoints (sortCleaned (dailyCleaned 14 w))
        (14 : ℤ)).length : ℤ) < max 2 10) := by
      rw [hlen]; decide
    have hfull := detect_plateau_full (fun _ => none) (dailySeries 14 w) {}
      none (dailyCleaned 14 w) "rolling_mean" [6, 7, 8, 9, 10, 11, 12, 13]
      [(w 0 + w 1 + w 2 + w 3 + w 4 + w 5 + w 6) / 7,
     (w 1 + w 2 + w 3 + w 4 + w 5 + w 6 + w 7) / 7,
     (w 2 + w 3 + w 4 + w 5 + w 6 + w 7 + w 8) / 7,
     (w 3 + w 4 + w 5 + w 6 + w 7 + w 8 + w 9) / 7,
     (w 4 + w 5 + w 6 + w 7 + w 8 + w 9 + w 10) / 7,
     (w 5 + w 6 + w 7 + w 8 + w 9 + w 10 + w 11) / 7,
     (w 6 + w 7 + w 8 + w 9 + w 10 + w 11 + w 12) / 7,
     (w 7 + w 8 + w 9 + w 10 + w 11 + w 12 + w 13) / 7] m1 m2 []
      rfl hne hge hcs hm1 hm2 rfl
    refine ⟨_, hfull, ?_, ?_⟩
    · dsimp only
      rw [Bool.and_eq_true]
      simp only [decide_eq_true_eq]
      exact ⟨hflat, hsmall⟩
    · dsimp only
      rw [if_pos (show ((decide _ && decide _) = true) from by
        rw [Bool.and_eq_true]
        simp only [decide_eq_true_eq]
        exact ⟨hflat, hsmall⟩)]
      split_ifs with hstrong
      · exact Or.inl rfl
      · exact Or.inr rfl

/-- Witness for the amended C4: the constant series at 150 on days 0-9
satisfies the hypotheses and is detected. -/
theorem claim_C4_amended_witness :
    ∃ r, detect_plateau (fun _ => none)
        (dailySeries 10 (fun _ => 150)) {} none = .ok r ∧
      r.detected = true ∧
      (r.severity = some "strong" ∨ r.severity = some "mild") :=
  claim_C4_amended 10 (fun _ => 150) 150 (by norm_num) (by norm_num)
    (fun i _ => by norm_num)

end NutritionPlateau
